import Mathlib

/-!
Verification of the 5G core-network emulator (BF3-5G-Demo) against its
natural-language specification.  Each network function that the claims
touch is shallowly embedded: the Python handlers become pure Lean
functions over explicit state records, module-level dictionaries become
insertion-ordered association lists, and FastAPI's `HTTPException`
becomes an `Except HttpError` result.  Wall-clock time, `uuid4` draws and
hash digests are passed in as parameters, with freshness stated as
hypotheses where the code relies on it.
-/

/-- Result of raising `HTTPException(status_code, detail)` in a handler. -/
structure HttpError where
  status : Nat
  detail : String
deriving Repr, DecidableEq

namespace PyDict

/-- Lookup in a Python dict modelled as an insertion-ordered association list. -/
def aget {κ α : Type} [BEq κ] (l : List (κ × α)) (k : κ) : Option α :=
  (l.find? (fun kv => kv.1 == k)).map (fun kv => kv.2)

/-- Python `k in d`. -/
def hasKey {κ α : Type} [BEq κ] (l : List (κ × α)) (k : κ) : Bool :=
  l.any (fun kv => kv.1 == k)

/-- Python `d[k] = v`: replace in place if present, else append (dicts keep insertion order). -/
def aset {κ α : Type} [BEq κ] (l : List (κ × α)) (k : κ) (v : α) : List (κ × α) :=
  if hasKey l k then l.map (fun kv => if kv.1 == k then (k, v) else kv) else l ++ [(k, v)]

/-- Python `del d[k]`. -/
def adel {κ α : Type} [BEq κ] (l : List (κ × α)) (k : κ) : List (κ × α) :=
  l.filter (fun kv => kv.1 != k)

theorem aget_set_found {κ α : Type} [BEq κ] [LawfulBEq κ] (l : List (κ × α)) (k : κ) (v : α)
    (h : hasKey l k = true) :
    aget (l.map (fun kv => if kv.1 == k then (k, v) else kv)) k = some v := by
  induction l with
  | nil => simp [hasKey] at h
  | cons hd t ih =>
    rw [List.map_cons]
    by_cases hk : (hd.1 == k) = true
    · rw [if_pos hk]
      unfold aget
      rw [List.find?_cons_of_pos _ (by simp)]
      rfl
    · rw [if_neg hk]
      have ht : hasKey t k = true := by
        unfold hasKey at h ⊢
        simp only [List.any_cons, Bool.or_eq_true] at h
        rcases h with h1 | h1
        · exact absurd h1 hk
        · exact h1
      unfold aget at ih ⊢
      rw [List.find?_cons_of_neg _ (by simpa using hk)]
      exact ih ht

theorem aget_append_single {κ α : Type} [BEq κ] [LawfulBEq κ] (l : List (κ × α)) (k : κ) (v : α)
    (h : hasKey l k = false) :
    aget (l ++ [(k, v)]) k = some v := by
  induction l with
  | nil => simp [aget, List.find?]
  | cons hd t ih =>
    unfold hasKey at h
    rw [List.any_cons, Bool.or_eq_false_iff] at h
    rw [List.cons_append]
    unfold aget at ih ⊢
    rw [List.find?_cons_of_neg _ (by simp [h.1])]
    exact ih h.2

theorem aget_aset_self {κ α : Type} [BEq κ] [LawfulBEq κ] (l : List (κ × α)) (k : κ) (v : α) :
    aget (aset l k v) k = some v := by
  unfold aset
  by_cases h : hasKey l k
  · rw [if_pos h]
    exact aget_set_found l k v h
  · rw [if_neg h]
    exact aget_append_single l k v (by simpa using h)

theorem mem_aset_cases {κ α : Type} [BEq κ] {l : List (κ × α)} {k : κ} {v : α}
    {kv : κ × α} (h : kv ∈ aset l k v) : kv ∈ l ∨ kv = (k, v) := by
  unfold aset at h
  by_cases hk : hasKey l k
  · rw [if_pos hk] at h
    rw [List.mem_map] at h
    obtain ⟨kv0, hkv0, heq⟩ := h
    by_cases he : (kv0.1 == k) = true
    · rw [if_pos he] at heq
      right
      exact heq.symm
    · rw [if_neg he] at heq
      left
      subst heq
      exact hkv0
  · rw [if_neg hk] at h
    rcases List.mem_append.mp h with h2 | h2
    · left
      exact h2
    · right
      exact List.mem_singleton.mp h2

end PyDict

/-- An S-NSSAI (`sst` + optional `sd`), shared by the SBI payloads. -/
structure Snssai where
  sst : Nat
  sd : Option String
deriving Repr, DecidableEq

/-- Python's substring test `sub in s`, over the underlying character lists. -/
def strContains (s sub : String) : Bool :=
  (s.data.tails.any (fun t => sub.data.isPrefixOf t))

/-- Python truthiness of an optional string (`None` and `""` are falsy). -/
def truthyStr : Option String → Bool
  | none => false
  | some s => !(s == "")

/-- Python truthiness of an optional integer (`None` and `0` are falsy). -/
def truthyNat : Option Nat → Bool
  | none => false
  | some n => !(n == 0)

/-!
## AUSF (ausf.py)

Authentication contexts live in the module dict `authentication_contexts`;
a context is created by the UE-Authentications POST with status `ONGOING`
and no `kseaf` key, and the 5G-AKA confirmation PUT re-verifies `resStar`
against the stored `hxresstar` on every call, overwriting `status`.
The SHA-256 hex digest used by `derive_kseaf` is abstracted as `sha`.
-/

namespace AUSF

/-- One entry of `authentication_contexts` (ausf.py lines 238-248): the
`kseaf` key is absent (`none`) until a successful confirmation adds it. -/
structure AuthCtx where
  supi : String
  servingNetworkName : String
  rand : String
  autn : String
  hxresstar : String
  kausf : String
  status : String
  kseaf : Option String
deriving Repr, DecidableEq

/-- The `authentication_contexts` module dict. -/
abbrev Ctxs := List (String × AuthCtx)

/-- Response body of the confirmation PUT (`ConfirmationDataResponse`). -/
structure ConfirmationDataResponse where
  authResult : String
  supi : Option String
  kseaf : Option String
deriving Repr, DecidableEq

/-- AUSF.derive_kseaf (ausf.py lines 128-132). -/
def derive_kseaf (sha : String → String) (kausf serving_network_name : String) : String :=
  sha (kausf ++ serving_network_name ++ "KSEAF")

/-- AUSF.verify_authentication_response (ausf.py lines 134-146). -/
def verify_authentication_response (ctxs : Ctxs) (auth_ctx_id res_star : String) : Bool :=
  match PyDict.aget ctxs auth_ctx_id with
  | none => false
  | some context => res_star == context.hxresstar

/-- The ue_authentication_request POST (ausf.py lines 236-248): stores a
fresh context with status `ONGOING`; the vector fields are parameters
(they come from UDM or from local random generation). -/
def ue_authentication_post (ctxs : Ctxs) (auth_ctx_id supi snn rand autn hx kausf : String) :
    Ctxs :=
  PyDict.aset ctxs auth_ctx_id
    { supi := supi, servingNetworkName := snn, rand := rand, autn := autn,
      hxresstar := hx, kausf := kausf, status := "ONGOING", kseaf := none }

/-- The authentication_confirmation PUT (ausf.py lines 281-345).  The
handler re-raises `HTTPException` before the catch-all, so the 404 for an
unknown id survives; on a match it sets status `SUCCESS` and adds `kseaf`,
on a mismatch it sets status `FAILURE` — in both cases unconditionally,
without checking whether the context already reached a terminal status. -/
def authentication_confirmation (sha : String → String) (ctxs : Ctxs)
    (authCtxId resStar : String) :
    Except HttpError (Ctxs × ConfirmationDataResponse) :=
  match PyDict.aget ctxs authCtxId with
  | none => .error { status := 404, detail := "Authentication context not found" }
  | some context =>
    if verify_authentication_response ctxs authCtxId resStar then
      .ok (PyDict.aset ctxs authCtxId
             { context with status := "SUCCESS",
                            kseaf := some (derive_kseaf sha context.kausf
                                             context.servingNetworkName) },
           { authResult := "AUTHENTICATION_SUCCESS", supi := some context.supi,
             kseaf := some (derive_kseaf sha context.kausf context.servingNetworkName) })
    else
      .ok (PyDict.aset ctxs authCtxId { context with status := "FAILURE" },
           { authResult := "AUTHENTICATION_FAILURE", supi := none, kseaf := none })

/-- The delete_authentication_context DELETE (ausf.py lines 376-382). -/
def delete_authentication_context (ctxs : Ctxs) (authCtxId : String) : Ctxs :=
  if PyDict.hasKey ctxs authCtxId then PyDict.adel ctxs authCtxId else ctxs

/-- The operations that mutate `authentication_contexts`. -/
inductive Op where
  | post (auth_ctx_id supi snn rand autn hx kausf : String)
  | confirm (authCtxId resStar : String)
  | del (authCtxId : String)

/-- State reached after one operation. -/
def stepOp (sha : String → String) (ctxs : Ctxs) : Op → Ctxs
  | .post id supi snn rand autn hx kausf =>
      ue_authentication_post ctxs id supi snn rand autn hx kausf
  | .confirm id res =>
      match authentication_confirmation sha ctxs id res with
      | .ok (ctxs2, _) => ctxs2
      | .error _ => ctxs
  | .del id => delete_authentication_context ctxs id

/-- State reached from boot (empty dict) after a sequence of operations. -/
def runOps (sha : String → String) (ops : List Op) : Ctxs :=
  ops.foldl (stepOp sha) []

/-- The SUCCESS-implies-kseaf invariant of the context store. -/
def KseafInv (ctxs : Ctxs) : Prop :=
  ∀ kv ∈ ctxs, kv.2.status = "SUCCESS" → kv.2.kseaf.isSome

theorem kseafInv_aset {ctxs : Ctxs} (h : KseafInv ctxs) (k : String) (c : AuthCtx)
    (hc : c.status = "SUCCESS" → c.kseaf.isSome) : KseafInv (PyDict.aset ctxs k c) := by
  intro kv hmem hs
  unfold PyDict.aset at hmem
  by_cases hk : PyDict.hasKey ctxs k
  · rw [if_pos hk] at hmem
    rw [List.mem_map] at hmem
    obtain ⟨kv0, hkv0, heq⟩ := hmem
    by_cases he : (kv0.1 == k) = true
    · rw [if_pos he] at heq
      subst heq
      exact hc hs
    · rw [if_neg he] at heq
      subst heq
      exact h kv0 hkv0 hs
  · rw [if_neg hk] at hmem
    rcases List.mem_append.mp hmem with hmem2 | hmem2
    · exact h kv hmem2 hs
    · rw [List.mem_singleton] at hmem2
      subst hmem2
      exact hc hs

theorem kseafInv_step (sha : String → String) {ctxs : Ctxs} (h : KseafInv ctxs) (op : Op) :
    KseafInv (stepOp sha ctxs op) := by
  cases op with
  | post id supi snn rand autn hx kausf =>
    simp only [stepOp]
    unfold ue_authentication_post
    apply kseafInv_aset h
    intro hs
    simp at hs
  | confirm id res =>
    simp only [stepOp]
    cases hres : authentication_confirmation sha ctxs id res with
    | error e => exact h
    | ok p =>
      obtain ⟨ctxs2, resp⟩ := p
      unfold authentication_confirmation at hres
      split at hres
      · exact absurd hres (by simp)
      · rename_i context hc
        split at hres
        · simp only [Except.ok.injEq, Prod.mk.injEq] at hres
          obtain ⟨h1, -⟩ := hres
          subst h1
          apply kseafInv_aset h
          intro _
          rfl
        · simp only [Except.ok.injEq, Prod.mk.injEq] at hres
          obtain ⟨h1, -⟩ := hres
          subst h1
          apply kseafInv_aset h
          intro hs
          simp at hs
  | del id =>
    simp only [stepOp]
    unfold delete_authentication_context
    by_cases hk : PyDict.hasKey ctxs id
    · rw [if_pos hk]
      intro kv hmem hs
      exact h kv (List.mem_of_mem_filter hmem) hs
    · rw [if_neg hk]
      exact h

/-- Along every operation sequence from boot, every context in status
SUCCESS carries a (non-null) kseaf. -/
theorem kseafInv_runOps (sha : String → String) (ops : List Op) : KseafInv (runOps sha ops) := by
  unfold runOps
  induction ops using List.reverseRecOn with
  | nil => intro kv hmem; simp at hmem
  | append_singleton ops op ih =>
    rw [List.foldl_append, List.foldl_cons, List.foldl_nil]
    exact kseafInv_step sha ih op

/-- Stand-in for the SHA-256 hex digest in concrete scenarios. -/
def demoSha (s : String) : String := "sha256:" ++ s

/-- A concrete stored authentication context that already reached the
terminal status SUCCESS (as produced by a successful confirmation). -/
def sampleSuccessCtx : AuthCtx :=
  { supi := "imsi-001010000000001",
    servingNetworkName := "5G:mnc001.mcc001.3gppnetwork.org",
    rand := "rand1", autn := "autn1", hxresstar := "hx1", kausf := "kausf1",
    status := "SUCCESS", kseaf := some (demoSha "kausf15G:mnc001.mcc001.3gppnetwork.orgKSEAF") }

end AUSF

/-- C3 counterexample: the claim "once an AUSF authentication context has
reached a terminal status its status never changes under any subsequent
operation" is false at a concrete input.  A context created by the
UE-Authentications POST and confirmed with the correct resStar `hx1` is in
terminal status SUCCESS, yet one further confirmation PUT with a wrong
resStar moves the same context to status FAILURE. -/
theorem C3_terminal_status_overwritten :
    (PyDict.aget (AUSF.runOps AUSF.demoSha
        [AUSF.Op.post "ctx-1" "imsi-001010000000001" "5G:mnc001.mcc001.3gppnetwork.org"
           "rand1" "autn1" "hx1" "kausf1",
         AUSF.Op.confirm "ctx-1" "hx1"]) "ctx-1").map AUSF.AuthCtx.status
      = some "SUCCESS"
    ∧ (PyDict.aget (AUSF.runOps AUSF.demoSha
        [AUSF.Op.post "ctx-1" "imsi-001010000000001" "5G:mnc001.mcc001.3gppnetwork.org"
           "rand1" "autn1" "hx1" "kausf1",
         AUSF.Op.confirm "ctx-1" "hx1",
         AUSF.Op.confirm "ctx-1" "WRONG"]) "ctx-1").map AUSF.AuthCtx.status
      = some "FAILURE" :=
  ⟨rfl, rfl⟩

/-- C3 amended: (a) along every operation sequence from boot, every AUSF
context in status SUCCESS carries a non-null kseaf; (b) the 5G-AKA
confirmation PUT on an existing context never rejects it and always
re-verifies, leaving the context in status SUCCESS exactly when resStar
matches the stored hxresstar — so a terminal status is overwritten by each
subsequent confirmation rather than frozen. -/
theorem C3_confirmation_reverifies_and_kseaf_inv :
    (∀ (sha : String → String) (ops : List AUSF.Op), AUSF.KseafInv (AUSF.runOps sha ops))
    ∧ (∀ (sha : String → String) (ctxs : AUSF.Ctxs) (id : String) (context : AUSF.AuthCtx)
         (resStar : String), PyDict.aget ctxs id = some context →
        ∃ ctxs2 resp, AUSF.authentication_confirmation sha ctxs id resStar =
            Except.ok (ctxs2, resp)
          ∧ (PyDict.aget ctxs2 id).map AUSF.AuthCtx.status =
              some (if resStar = context.hxresstar then "SUCCESS" else "FAILURE")) := by
  constructor
  · exact AUSF.kseafInv_runOps
  · intro sha ctxs id context resStar h
    have hv : AUSF.verify_authentication_response ctxs id resStar = (resStar == context.hxresstar) := by
      unfold AUSF.verify_authentication_response
      rw [h]
    unfold AUSF.authentication_confirmation
    simp only [h]
    by_cases hr : resStar = context.hxresstar
    · rw [if_pos hr]
      have : AUSF.verify_authentication_response ctxs id resStar = true := by
        rw [hv]
        exact beq_iff_eq.mpr hr
      rw [if_pos this]
      refine ⟨_, _, rfl, ?_⟩
      rw [PyDict.aget_aset_self]
      rfl
    · rw [if_neg hr]
      have : ¬ AUSF.verify_authentication_response ctxs id resStar = true := by
        rw [hv]
        simp only [beq_iff_eq]
        exact hr
      rw [if_neg this]
      refine ⟨_, _, rfl, ?_⟩
      rw [PyDict.aget_aset_self]
      rfl

/-- C3 witness: the amended theorem applied at a concrete operation list
and at a concrete stored context with a non-matching resStar. -/
theorem C3_witness :
    AUSF.KseafInv (AUSF.runOps AUSF.demoSha
      [AUSF.Op.post "ctx-1" "imsi-001010000000001" "5G:mnc001.mcc001.3gppnetwork.org"
         "rand1" "autn1" "hx1" "kausf1",
       AUSF.Op.confirm "ctx-1" "hx1"])
    ∧ (∃ ctxs2 resp, AUSF.authentication_confirmation AUSF.demoSha
          [("ctx-1", AUSF.sampleSuccessCtx)] "ctx-1" "WRONG" = Except.ok (ctxs2, resp)
        ∧ (PyDict.aget ctxs2 "ctx-1").map AUSF.AuthCtx.status =
            some (if ("WRONG" : String) = AUSF.sampleSuccessCtx.hxresstar
                  then "SUCCESS" else "FAILURE")) :=
  ⟨C3_confirmation_reverifies_and_kseaf_inv.1 AUSF.demoSha _,
   C3_confirmation_reverifies_and_kseaf_inv.2 AUSF.demoSha _ "ctx-1" AUSF.sampleSuccessCtx
     "WRONG" rfl⟩

/-!
## SMF (smf.py)

Create SM Context validates the five mandatory fields with Python
truthiness (`not pdu_session_data.get(field)`), allocates the
deterministic UE IPv4 `10.<(sid % 254) + 1>.0.1`, sends a PFCP Session
Establishment Request to the previously discovered UPF, and answers the
AMF with the N2 SM information.  The outbound N4 call is modelled by the
parameters `upf_url` (the cached discovery result) and `n4resp` (`none`
models a transport failure).
-/

namespace SMF

/-- The JSON body of POST /nsmf-pdusession/v1/sm-contexts, read with
`.get`, so every field is optional at this level. -/
structure SmContextRequest where
  supi : Option String
  pduSessionId : Option Nat
  dnn : Option String
  sNssai : Option Snssai
  anType : Option String
  pduSessionType : Option String
  sscMode : Option String
deriving Repr, DecidableEq

/-- Body of the UPF's N4 answer, as read by `_send_pfcp_establishment_request`. -/
structure N4Response where
  upfSeid : Option String
  n3Endpoint : Option String
deriving Repr, DecidableEq

/-- One entry of `n2SmInfo.qosFlowSetupRequestList` in the SMF answer. -/
structure QosFlowItem where
  qfi : Nat
  fiveqi : Nat
  priority : Nat
deriving Repr, DecidableEq

/-- The SMF answer to the AMF (smf.py lines 196-216), flattened. -/
structure SmContextResponse where
  status : String
  cause : String
  pduSessionId : Nat
  ueIpAddress : String
  qosFlowSetupRequestList : List QosFlowItem
  contextId : String
deriving Repr, DecidableEq

/-- A stored `session_contexts` entry (smf.py lines 186-192). -/
structure SessionContext where
  ueIpAddress : String
  sessionState : String
  pfcpSeid : String
deriving Repr, DecidableEq

/-- The required_fields list of smf.py line 157. -/
def required_fields : List String := ["supi", "pduSessionId", "dnn", "sNssai", "anType"]

/-- Python truthiness of `pdu_session_data.get(field)` per field. -/
def fieldTruthy (req : SmContextRequest) : String → Bool
  | "supi" => truthyStr req.supi
  | "pduSessionId" => truthyNat req.pduSessionId
  | "dnn" => truthyStr req.dnn
  | "sNssai" => req.sNssai.isSome
  | "anType" => truthyStr req.anType
  | _ => false

/-- The missing_fields comprehension of smf.py line 158. -/
def missing_fields (req : SmContextRequest) : List String :=
  required_fields.filter (fun f => !fieldTruthy req f)

/-- The helper _send_pfcp_establishment_request (smf.py lines 74-142):
no cached UPF address gives 502 "UPF service not available", a transport
failure gives 502 "N4 interface error"; both HTTPExceptions are re-raised
unchanged by the caller's `except HTTPException`. -/
def send_pfcp_establishment_request (upf_url : Option String)
    (n4resp : Option N4Response) : Except HttpError N4Response :=
  match upf_url with
  | none => .error { status := 502, detail := "UPF service not available" }
  | some _ =>
    match n4resp with
    | none => .error { status := 502, detail := "N4 interface error" }
    | some r => .ok r

/-- The deterministic UE IPv4 of smf.py line 173:
`ue_ip = f"10.{(pdu_session_id % 254) + 1}.0.1"`. -/
def ueIp (req : SmContextRequest) : String :=
  "10." ++ toString (req.pduSessionId.getD 0 % 254 + 1) ++ ".0.1"

/-- The `f"{supi}:{pdu_session_id}"` session key of smf.py line 186. -/
def sessionKey (req : SmContextRequest) : String :=
  req.supi.getD "" ++ ":" ++ toString (req.pduSessionId.getD 0)

/-- The create_sm_context handler (smf.py lines 144-231).  Validation of
the mandatory fields happens before the traced block, so the 400 is
raised unconditionally when a required field is falsy (Python tests the
list `missing_fields` for nonemptiness); the detail string is rendered
with `String.intercalate` instead of Python's list repr. -/
def create_sm_context (store : List (String × SessionContext)) (req : SmContextRequest)
    (upf_url : Option String) (n4resp : Option N4Response) :
    Except HttpError (List (String × SessionContext) × SmContextResponse) :=
  if missing_fields req = [] then
    match send_pfcp_establishment_request upf_url n4resp with
    | .error e => .error e
    | .ok n4 =>
      .ok (PyDict.aset store (sessionKey req)
             { ueIpAddress := ueIp req, sessionState := "ACTIVE",
               pfcpSeid := n4.upfSeid.getD "upf-seid-unknown" },
           { status := "CREATED", cause := "PDU_SESSION_ESTABLISHMENT_ACCEPTED",
             pduSessionId := req.pduSessionId.getD 0, ueIpAddress := ueIp req,
             qosFlowSetupRequestList := [{ qfi := 9, fiveqi := 9, priority := 80 }],
             contextId := sessionKey req })
  else
    .error { status := 400,
             detail := "Missing required fields: " ++
               String.intercalate ", " (missing_fields req) }

end SMF

/-- C7: Create SM Context rejects a request whose mandatory fields
{supi, pduSessionId, dnn, sNssai, anType} are not all present (truthy)
with invalid-argument (HTTP 400), and on success — all mandatory fields
present and the N4 exchange succeeding — it returns
ueIpAddress = "10.<(pduSessionId % 254) + 1>.0.1" and
n2SmInfo.qosFlowSetupRequestList[0].qfi = 9. -/
theorem C7_create_sm_context_validation_and_result :
    (∀ (store : List (String × SMF.SessionContext)) (req : SMF.SmContextRequest)
       (upf_url : Option String) (n4resp : Option SMF.N4Response),
      (∃ f ∈ SMF.required_fields, SMF.fieldTruthy req f = false) →
      ∃ d, SMF.create_sm_context store req upf_url n4resp =
        Except.error { status := 400, detail := d })
    ∧ (∀ (store : List (String × SMF.SessionContext)) (req : SMF.SmContextRequest)
         (upf_url : String) (n4 : SMF.N4Response) (sid : Nat),
        (∀ f ∈ SMF.required_fields, SMF.fieldTruthy req f = true) →
        req.pduSessionId = some sid →
        ∃ store2 resp,
          SMF.create_sm_context store req (some upf_url) (some n4) =
            Except.ok (store2, resp)
          ∧ resp.ueIpAddress = "10." ++ toString (sid % 254 + 1) ++ ".0.1"
          ∧ (resp.qosFlowSetupRequestList.head?.map SMF.QosFlowItem.qfi) = some 9) := by
  constructor
  · intro store req upf_url n4resp hmiss
    obtain ⟨f, hf, hft⟩ := hmiss
    have hne : SMF.missing_fields req ≠ [] := by
      unfold SMF.missing_fields
      intro hc
      have := List.filter_eq_nil_iff.mp hc f hf
      rw [hft] at this
      simp at this
    unfold SMF.create_sm_context
    rw [if_neg hne]
    exact ⟨_, rfl⟩
  · intro store req upf_url n4 sid hall hsid
    have hnil : SMF.missing_fields req = [] := by
      unfold SMF.missing_fields
      rw [List.filter_eq_nil_iff]
      intro f hf
      rw [hall f hf]
      simp
    have hip : SMF.ueIp req = "10." ++ toString (sid % 254 + 1) ++ ".0.1" := by
      unfold SMF.ueIp
      rw [hsid]
      rfl
    unfold SMF.create_sm_context
    rw [if_pos hnil]
    exact ⟨_, _, rfl, hip, rfl⟩

/-- C7 witness: the theorem applied to the S2 scenario input
(supi imsi-001010000000001, pduSessionId 1, dnn internet) on the success
side, and to a request missing `anType` on the rejection side. -/
theorem C7_witness :
    (∃ d, SMF.create_sm_context []
        { supi := some "imsi-001010000000001", pduSessionId := some 1,
          dnn := some "internet", sNssai := some { sst := 1, sd := some "010203" },
          anType := none, pduSessionType := some "IPV4", sscMode := some "SSC_MODE_1" }
        (some "http://127.0.0.1:9002") (some { upfSeid := some "seid-1", n3Endpoint := none })
        = Except.error { status := 400, detail := d })
    ∧ (∃ store2 resp, SMF.create_sm_context []
        { supi := some "imsi-001010000000001", pduSessionId := some 1,
          dnn := some "internet", sNssai := some { sst := 1, sd := some "010203" },
          anType := some "3GPP_ACCESS", pduSessionType := some "IPV4",
          sscMode := some "SSC_MODE_1" }
        (some "http://127.0.0.1:9002") (some { upfSeid := some "seid-1", n3Endpoint := none })
        = Except.ok (store2, resp)
        ∧ resp.ueIpAddress = "10." ++ toString (1 % 254 + 1) ++ ".0.1"
        ∧ (resp.qosFlowSetupRequestList.head?.map SMF.QosFlowItem.qfi) = some 9) :=
  ⟨C7_create_sm_context_validation_and_result.1 [] _ _ _ ⟨"anType", by decide, by decide⟩,
   C7_create_sm_context_validation_and_result.2 [] _ "http://127.0.0.1:9002" _ 1
     (by decide) rfl⟩

/-!
## AMF (amf_nas.py)

The NAS endpoint.  `ue_contexts` is keyed by SUPI; the registration
handler always creates the context with `registration_state = "INITIAL"`
and only the accept paths ever write `"REGISTERED"`.  Python's
process-seeded `hash()` is the parameter `pyHash`; the AUSF round trip of
`initiate_authentication` is the parameter `auth_result` (`none` models
an unreachable AUSF or a non-200 answer).
-/

namespace AMF

/-- The authentication vector the AUSF returns inside `authenticationVector`. -/
structure AuthVectors where
  rand : String
  autn : String
  hxresstar : String
  kausf : String
deriving Repr, DecidableEq

/-- The NAS RegistrationRequest body (amf_nas.py lines 140-152), reduced
to the fields the handler reads. -/
structure RegistrationRequest where
  ngksi : Nat
  registration_type : Nat
  suci : String
  requested_nssai : Option (List Snssai)
deriving Repr, DecidableEq

/-- One entry of `ue_contexts` (amf_nas.py lines 465-476, plus the keys
the accept and security-mode paths add later). -/
structure UeContext where
  supi : String
  suci : String
  registration_type : Nat
  requested_nssai : Option (List Snssai)
  registration_state : String
  guti : Option String
  allowed_nssai : Option (List Snssai)
  security_mode_complete : Bool
  imeisv : Option String
deriving Repr, DecidableEq

/-- The `ue_contexts` module dict. -/
abbrev UeCtxs := List (String × UeContext)

/-- The RegistrationAccept NAS message (amf_nas.py lines 154-164), reduced
to the fields the theorems read. -/
structure RegistrationAccept where
  registration_result : Nat
  mobile_identity : String
  allowed_nssai : Option (List Snssai)
  rejected_nssai : Option (List Snssai)
deriving Repr, DecidableEq

/-- The JSON the registration endpoint returns, flattened: `status` plus
the discriminating payload of the two shapes (auth-required carries the
NAS AuthenticationRequest rand/autn, accept carries guti and the UDM
registration outcome). -/
structure RegResponse where
  status : String
  guti : Option String
  udm_registered : Option Bool
  auth_rand : Option String
  auth_autn : Option String
deriving Repr, DecidableEq

/-- Python `s.startswith(p)`, as a structural prefix test on characters. -/
def pyStartsWith (s p : String) : Bool := p.data.isPrefixOf s.data

/-- The last segment of `cs` split at `sep` (Python `s.split(sep)[-1]`
for a one-character separator); `acc` holds the current segment reversed. -/
def lastSegmentAux (sep : Char) : List Char → List Char → List Char
  | [], acc => acc.reverse
  | c :: rest, acc =>
    if c == sep then lastSegmentAux sep rest [] else lastSegmentAux sep rest (c :: acc)

/-- Python `s.split(sep)[-1]` for a one-character separator. -/
def lastSegment (sep : Char) (s : String) : String :=
  String.mk (lastSegmentAux sep s.data [])

/-- SUPI derivation from SUCI (amf_nas.py lines 460-462):
`supi = "imsi-" + suci.split("-")[-1]` when the SUCI has the prefix. -/
def deriveSupi (suci : String) : String :=
  if pyStartsWith suci "suci-" then "imsi-" ++ lastSegment '-' suci else suci

/-- Python `hex(n)[2:].upper().zfill(8)`. -/
def hexUpperZ8 (n : Nat) : String :=
  String.mk (List.replicate (8 - ((Nat.toDigits 16 n).map Char.toUpper).length) '0'
    ++ (Nat.toDigits 16 n).map Char.toUpper)

/-- AMF_NAS.generate_5g_guti (amf_nas.py lines 221-235): guti type "4",
the fixed GUAMI hex, then `hash(imsi) & 0xFFFFFFFF` in uppercase hex. -/
def generate_5g_guti (pyHash : String → Nat) (supi : String) : String :=
  "4" ++ "001010001001" ++
    hexUpperZ8 (pyHash (if pyStartsWith supi "imsi-" then String.mk (supi.data.drop 5)
                        else "001010000000001") % (2 ^ 32))

/-- The SSTs served by `plmn_support_list` (amf_nas.py lines 211-219). -/
def plmn_supported_ssts : List Nat := [1, 2]

/-- The NSSAI support test of amf_nas.py line 248. -/
def nssaiSupported (s : Snssai) : Bool := plmn_supported_ssts.any (fun t => t == s.sst)

/-- AMF_NAS.create_registration_accept (amf_nas.py lines 237-281):
partition requested S-NSSAIs by SST support, default when none requested
(Python also takes the default branch for an empty requested list). -/
def create_registration_accept (pyHash : String → Nat) (supi : String)
    (requested_nssai : Option (List Snssai)) : RegistrationAccept :=
  { registration_result := 1,
    mobile_identity := generate_5g_guti pyHash supi,
    allowed_nssai :=
      match requested_nssai with
      | some l =>
        if l.isEmpty then some [{ sst := 1, sd := some "010203" }]
        else if (l.filter nssaiSupported).isEmpty then none
        else some (l.filter nssaiSupported)
      | none => some [{ sst := 1, sd := some "010203" }],
    rejected_nssai :=
      match requested_nssai with
      | some l =>
        if l.isEmpty then none
        else if (l.filter (fun s => !nssaiSupported s)).isEmpty then none
        else some (l.filter (fun s => !nssaiSupported s))
      | none => none }

/-- The process_registration_request handler (amf_nas.py lines 447-520).
The context is stored with state INITIAL; when the registration type is
initial or emergency (1 or 3) and AUSF returned a vector, the handler
answers AUTHENTICATION_REQUIRED and leaves the context untouched;
otherwise it finalizes a RegistrationAccept, flips the state to
REGISTERED and registers with UDM (outcome `udm_ok`). -/
def process_registration_request (pyHash : String → Nat) (ctxs : UeCtxs)
    (req : RegistrationRequest) (auth_result : Option AuthVectors) (udm_ok : Bool) :
    UeCtxs × RegResponse :=
  let supi := deriveSupi req.suci
  let ctx0 : UeContext :=
    { supi := supi, suci := req.suci, registration_type := req.registration_type,
      requested_nssai := req.requested_nssai, registration_state := "INITIAL",
      guti := none, allowed_nssai := none, security_mode_complete := false,
      imeisv := none }
  let ctxs1 := PyDict.aset ctxs supi ctx0
  if (req.registration_type == 1 || req.registration_type == 3) && auth_result.isSome then
    (ctxs1,
     { status := "AUTHENTICATION_REQUIRED", guti := none, udm_registered := none,
       auth_rand := auth_result.map AuthVectors.rand,
       auth_autn := auth_result.map AuthVectors.autn })
  else
    (PyDict.aset ctxs1 supi
       { ctx0 with registration_state := "REGISTERED",
                   guti := some (create_registration_accept pyHash supi
                                   req.requested_nssai).mobile_identity,
                   allowed_nssai := (create_registration_accept pyHash supi
                                       req.requested_nssai).allowed_nssai },
     { status := "REGISTRATION_ACCEPT",
       guti := some (create_registration_accept pyHash supi
                       req.requested_nssai).mobile_identity,
       udm_registered := some udm_ok, auth_rand := none, auth_autn := none })

/-- The process_security_mode_complete handler (amf_nas.py lines 581-617).
The `HTTPException(404)` for an unknown SUPI is raised inside the `try`
whose catch-all converts every exception into a 500. -/
def process_security_mode_complete (pyHash : String → Nat) (ctxs : UeCtxs)
    (supi : String) (imeisv : Option String) :
    Except HttpError (UeCtxs × RegResponse) :=
  match PyDict.aget ctxs supi with
  | none => .error { status := 500,
                     detail := "Security mode complete failed: 404: UE context not found" }
  | some ctx =>
    .ok (PyDict.aset ctxs supi
           { ctx with security_mode_complete := true, imeisv := imeisv,
                      registration_state := "REGISTERED",
                      guti := some (create_registration_accept pyHash supi
                                      ctx.requested_nssai).mobile_identity },
         { status := "REGISTRATION_COMPLETE",
           guti := some (create_registration_accept pyHash supi
                           ctx.requested_nssai).mobile_identity,
           udm_registered := none, auth_rand := none, auth_autn := none })

/-- The operations that mutate `ue_contexts`. -/
inductive AmfOp where
  | register (req : RegistrationRequest) (auth_result : Option AuthVectors) (udm_ok : Bool)
  | secModeComplete (supi : String) (imeisv : Option String)

/-- State reached after one operation. -/
def stepAmf (pyHash : String → Nat) (ctxs : UeCtxs) : AmfOp → UeCtxs
  | .register req auth udm => (process_registration_request pyHash ctxs req auth udm).1
  | .secModeComplete supi imeisv =>
      match process_security_mode_complete pyHash ctxs supi imeisv with
      | .ok (ctxs2, _) => ctxs2
      | .error _ => ctxs

/-- State reached from boot (empty dict) after a sequence of operations. -/
def runAmf (pyHash : String → Nat) (ops : List AmfOp) : UeCtxs :=
  ops.foldl (stepAmf pyHash) []

/-- Every stored registration state is "INITIAL" or "REGISTERED". -/
def StateInv (ctxs : UeCtxs) : Prop :=
  ∀ kv ∈ ctxs, kv.2.registration_state = "INITIAL" ∨ kv.2.registration_state = "REGISTERED"

theorem stateInv_aset {ctxs : UeCtxs} (h : StateInv ctxs) (k : String) (c : UeContext)
    (hc : c.registration_state = "INITIAL" ∨ c.registration_state = "REGISTERED") :
    StateInv (PyDict.aset ctxs k c) := by
  intro kv hmem
  rcases PyDict.mem_aset_cases hmem with h2 | h2
  · exact h kv h2
  · subst h2
    exact hc

theorem stateInv_step (pyHash : String → Nat) {ctxs : UeCtxs} (h : StateInv ctxs)
    (op : AmfOp) : StateInv (stepAmf pyHash ctxs op) := by
  cases op with
  | register req auth udm =>
    simp only [stepAmf]
    unfold process_registration_request
    by_cases hb : ((req.registration_type == 1 || req.registration_type == 3)
                    && auth.isSome) = true
    · rw [if_pos hb]
      exact stateInv_aset h _ _ (Or.inl rfl)
    · rw [if_neg hb]
      exact stateInv_aset (stateInv_aset h _ _ (Or.inl rfl)) _ _ (Or.inr rfl)
  | secModeComplete supi imeisv =>
    simp only [stepAmf]
    cases hres : process_security_mode_complete pyHash ctxs supi imeisv with
    | error e => exact h
    | ok p =>
      obtain ⟨ctxs2, resp⟩ := p
      unfold process_security_mode_complete at hres
      split at hres
      · exact absurd hres (by simp)
      · rename_i ctx hget
        simp only [Except.ok.injEq, Prod.mk.injEq] at hres
        obtain ⟨h1, -⟩ := hres
        subst h1
        exact stateInv_aset h _ _ (Or.inr rfl)

/-- Stand-in for Python's process-seeded `hash()` in concrete scenarios. -/
def demoHash (s : String) : Nat := s.length * 2654435761

end AMF

/-- C4 counterexample: the claim "processing a NAS RegistrationRequest
creates the UE context in registration state AUTH_PENDING when
authentication is initiated, the stored registration state always being
one of DEREGISTERED, AUTH_PENDING, SEC_PENDING, REGISTERED" is false at a
concrete input.  Processing the S1 request (suci suci-001-01-0000-000000001,
registration_type 1) with the AUSF returning a vector answers
AUTHENTICATION_REQUIRED but stores the context with state "INITIAL",
which is none of the four claimed states. -/
theorem C4_initial_state_not_auth_pending :
    ((AMF.process_registration_request AMF.demoHash []
        { ngksi := 1, registration_type := 1, suci := "suci-001-01-0000-000000001",
          requested_nssai := none }
        (some { rand := "r1", autn := "a1", hxresstar := "h1", kausf := "k1" })
        true).2.status = "AUTHENTICATION_REQUIRED")
    ∧ ((PyDict.aget (AMF.process_registration_request AMF.demoHash []
        { ngksi := 1, registration_type := 1, suci := "suci-001-01-0000-000000001",
          requested_nssai := none }
        (some { rand := "r1", autn := "a1", hxresstar := "h1", kausf := "k1" })
        true).1 "imsi-000000001").map AMF.UeContext.registration_state = some "INITIAL")
    ∧ ("INITIAL" ∉ ["DEREGISTERED", "AUTH_PENDING", "SEC_PENDING", "REGISTERED"]) :=
  ⟨rfl, by decide, by decide⟩

/-- C4 amended: on the authentication-initiated path (registration type 1
or 3 with the AUSF returning a vector) the handler answers
AUTHENTICATION_REQUIRED and stores the UE context in registration state
"INITIAL" (not AUTH_PENDING), and along every operation sequence from
boot every stored registration state is "INITIAL" or "REGISTERED". -/
theorem C4_registration_creates_initial_state :
    (∀ (pyHash : String → Nat) (ctxs : AMF.UeCtxs) (req : AMF.RegistrationRequest)
       (auth : Option AMF.AuthVectors) (udm_ok : Bool),
      (req.registration_type = 1 ∨ req.registration_type = 3) → auth.isSome →
      (AMF.process_registration_request pyHash ctxs req auth udm_ok).2.status =
          "AUTHENTICATION_REQUIRED"
        ∧ (PyDict.aget (AMF.process_registration_request pyHash ctxs req auth udm_ok).1
             (AMF.deriveSupi req.suci)).map AMF.UeContext.registration_state =
            some "INITIAL")
    ∧ (∀ (pyHash : String → Nat) (ops : List AMF.AmfOp),
        AMF.StateInv (AMF.runAmf pyHash ops)) := by
  constructor
  · intro pyHash ctxs req auth udm_ok hty hsome
    have hb : ((req.registration_type == 1 || req.registration_type == 3)
                && auth.isSome) = true := by
      rw [Bool.and_eq_true, Bool.or_eq_true]
      constructor
      · rcases hty with h1 | h1
        · left; rw [h1]; rfl
        · right; rw [h1]; rfl
      · exact hsome
    unfold AMF.process_registration_request
    rw [if_pos hb]
    exact ⟨rfl, by rw [PyDict.aget_aset_self]; rfl⟩
  · intro pyHash ops
    unfold AMF.runAmf
    induction ops using List.reverseRecOn with
    | nil => intro kv hmem; simp at hmem
    | append_singleton ops op ih =>
      rw [List.foldl_append, List.foldl_cons, List.foldl_nil]
      exact AMF.stateInv_step pyHash ih op

/-- C4 witness: the amended theorem applied to the concrete S1 request
with a present authentication vector, and to a two-operation run. -/
theorem C4_witness :
    ((AMF.process_registration_request AMF.demoHash []
        { ngksi := 1, registration_type := 1, suci := "suci-001-01-0000-000000001",
          requested_nssai := none }
        (some { rand := "r1", autn := "a1", hxresstar := "h1", kausf := "k1" })
        true).2.status = "AUTHENTICATION_REQUIRED"
      ∧ (PyDict.aget (AMF.process_registration_request AMF.demoHash []
          { ngksi := 1, registration_type := 1, suci := "suci-001-01-0000-000000001",
            requested_nssai := none }
          (some { rand := "r1", autn := "a1", hxresstar := "h1", kausf := "k1" })
          true).1 (AMF.deriveSupi "suci-001-01-0000-000000001")).map
            AMF.UeContext.registration_state = some "INITIAL")
    ∧ AMF.StateInv (AMF.runAmf AMF.demoHash
        [AMF.AmfOp.register
          { ngksi := 1, registration_type := 1, suci := "suci-001-01-0000-000000001",
            requested_nssai := none } none true,
         AMF.AmfOp.secModeComplete "imsi-000000001" (some "imeisv-1")]) :=
  ⟨C4_registration_creates_initial_state.1 AMF.demoHash [] _ _ true (Or.inl rfl) rfl,
   C4_registration_creates_initial_state.2 AMF.demoHash _⟩

namespace AMF

/-- The NAS PduSessionEstablishmentRequest body (amf_nas.py lines 166-176),
reduced to the fields the handler reads. -/
structure PduSessionEstablishmentRequest where
  pdu_session_id : Nat
  pti : Nat
  pdu_session_type : Nat
  ssc_mode : Nat
deriving Repr, DecidableEq

/-- One entry of the AMF-side `pdu_sessions` dict (amf_nas.py lines 632-640). -/
structure PduSession where
  pdu_session_id : Nat
  pti : Nat
  pdu_session_type : Nat
  ssc_mode : Nat
  state : String
deriving Repr, DecidableEq

/-- The sm-context payload the AMF builds for the SMF (amf_nas.py lines
644-650): exactly pduSessionId, dnn, sNssai, pduSessionType and sscMode —
without supi and without anType. -/
def build_smf_request (pdu_req : PduSessionEstablishmentRequest) : SMF.SmContextRequest :=
  { supi := none, pduSessionId := some pdu_req.pdu_session_id, dnn := some "internet",
    sNssai := some { sst := 1, sd := some "010203" }, anType := none,
    pduSessionType := some "IPV4", sscMode := some "SSC_MODE_1" }

/-- The JSON the PDU-session endpoint returns, flattened: the SMF-success
shape carries the session context (`via_smf = true`), the local fallback
shape carries `allocated_ip = "192.168.1.100"`. -/
structure PduResponse where
  status : String
  pdu_session_id : Nat
  allocated_ip : Option String
  via_smf : Bool
deriving Repr, DecidableEq

/-- The process_pdu_session_establishment_request handler (amf_nas.py
lines 619-679).  The delegation `requests.post` to the SMF is modelled by
applying the SMF's own create_sm_context to the built payload (`smf_store`,
`upf_url`, `n4resp` are the SMF side's state and parameters); an error
result models the non-2xx response, after which the handler falls through
to the local fallback that answers with allocated_ip 192.168.1.100. -/
def process_pdu_session_establishment_request
    (pdu_req : PduSessionEstablishmentRequest) (session_id : String)
    (pdu_store : List (String × PduSession)) (smf_url : Option String)
    (smf_store : List (String × SMF.SessionContext)) (upf_url : Option String)
    (n4resp : Option SMF.N4Response) :
    List (String × PduSession) × PduResponse :=
  if truthyStr smf_url then
    match SMF.create_sm_context smf_store (build_smf_request pdu_req) upf_url n4resp with
    | .ok _ =>
      (PyDict.aset pdu_store session_id
         { pdu_session_id := pdu_req.pdu_session_id, pti := pdu_req.pti,
           pdu_session_type := pdu_req.pdu_session_type, ssc_mode := pdu_req.ssc_mode,
           state := "ACTIVE" },
       { status := "PDU_SESSION_ESTABLISHMENT_ACCEPT",
         pdu_session_id := pdu_req.pdu_session_id, allocated_ip := none, via_smf := true })
    | .error _ =>
      (PyDict.aset pdu_store session_id
         { pdu_session_id := pdu_req.pdu_session_id, pti := pdu_req.pti,
           pdu_session_type := pdu_req.pdu_session_type, ssc_mode := pdu_req.ssc_mode,
           state := "ACTIVE" },
       { status := "PDU_SESSION_ESTABLISHMENT_ACCEPT",
         pdu_session_id := pdu_req.pdu_session_id,
         allocated_ip := some "192.168.1.100", via_smf := false })
  else
    (PyDict.aset pdu_store session_id
       { pdu_session_id := pdu_req.pdu_session_id, pti := pdu_req.pti,
         pdu_session_type := pdu_req.pdu_session_type, ssc_mode := pdu_req.ssc_mode,
         state := "ACTIVE" },
     { status := "PDU_SESSION_ESTABLISHMENT_ACCEPT",
       pdu_session_id := pdu_req.pdu_session_id,
       allocated_ip := some "192.168.1.100", via_smf := false })

end AMF

/-- C10: the sm-context payload the AMF builds when delegating a
PduSessionEstablishmentRequest to the SMF contains exactly
{pduSessionId, dnn, sNssai, pduSessionType, sscMode} and omits supi and
anType; consequently the SMF's mandatory-field validation rejects the
delegation with invalid-argument (HTTP 400), and the AMF — whenever the
SMF is reachable — answers with the local-fallback accept carrying
allocated_ip "192.168.1.100". -/
theorem C10_delegation_rejected_then_local_fallback :
    ∀ (pdu_req : AMF.PduSessionEstablishmentRequest) (session_id : String)
      (pdu_store : List (String × AMF.PduSession)) (smf_url : Option String)
      (smf_store : List (String × SMF.SessionContext)) (upf_url : Option String)
      (n4resp : Option SMF.N4Response),
      truthyStr smf_url = true →
      ((AMF.build_smf_request pdu_req).supi = none
        ∧ (AMF.build_smf_request pdu_req).anType = none
        ∧ (AMF.build_smf_request pdu_req).pduSessionId = some pdu_req.pdu_session_id
        ∧ (AMF.build_smf_request pdu_req).dnn = some "internet"
        ∧ (AMF.build_smf_request pdu_req).sNssai = some { sst := 1, sd := some "010203" }
        ∧ (AMF.build_smf_request pdu_req).pduSessionType = some "IPV4"
        ∧ (AMF.build_smf_request pdu_req).sscMode = some "SSC_MODE_1")
      ∧ (∃ d, SMF.create_sm_context smf_store (AMF.build_smf_request pdu_req)
            upf_url n4resp = Except.error { status := 400, detail := d })
      ∧ (AMF.process_pdu_session_establishment_request pdu_req session_id pdu_store
           smf_url smf_store upf_url n4resp).2 =
          { status := "PDU_SESSION_ESTABLISHMENT_ACCEPT",
            pdu_session_id := pdu_req.pdu_session_id,
            allocated_ip := some "192.168.1.100", via_smf := false } := by
  intro pdu_req session_id pdu_store smf_url smf_store upf_url n4resp hurl
  have hne : SMF.missing_fields (AMF.build_smf_request pdu_req) ≠ [] := by
    unfold SMF.missing_fields
    intro hc
    have := List.filter_eq_nil_iff.mp hc "supi" (by decide)
    simp [SMF.fieldTruthy, AMF.build_smf_request, truthyStr] at this
  have herr : ∃ d, SMF.create_sm_context smf_store (AMF.build_smf_request pdu_req)
      upf_url n4resp = Except.error { status := 400, detail := d } := by
    unfold SMF.create_sm_context
    rw [if_neg hne]
    exact ⟨_, rfl⟩
  refine ⟨⟨rfl, rfl, rfl, rfl, rfl, rfl, rfl⟩, herr, ?_⟩
  obtain ⟨d, hd⟩ := herr
  unfold AMF.process_pdu_session_establishment_request
  rw [if_pos hurl, hd]

/-- C10 witness: the theorem applied to a concrete PDU-session request
(session id 1) with a reachable SMF. -/
theorem C10_witness :
    truthyStr (some "http://127.0.0.1:9001") = true
    ∧ (((AMF.build_smf_request
          { pdu_session_id := 1, pti := 1, pdu_session_type := 1, ssc_mode := 1 }).supi = none
        ∧ (AMF.build_smf_request
          { pdu_session_id := 1, pti := 1, pdu_session_type := 1, ssc_mode := 1 }).anType = none
        ∧ (AMF.build_smf_request
          { pdu_session_id := 1, pti := 1, pdu_session_type := 1, ssc_mode := 1 }).pduSessionId = some 1
        ∧ (AMF.build_smf_request
          { pdu_session_id := 1, pti := 1, pdu_session_type := 1, ssc_mode := 1 }).dnn = some "internet"
        ∧ (AMF.build_smf_request
          { pdu_session_id := 1, pti := 1, pdu_session_type := 1, ssc_mode := 1 }).sNssai = some { sst := 1, sd := some "010203" }
        ∧ (AMF.build_smf_request
          { pdu_session_id := 1, pti := 1, pdu_session_type := 1, ssc_mode := 1 }).pduSessionType = some "IPV4"
        ∧ (AMF.build_smf_request
          { pdu_session_id := 1, pti := 1, pdu_session_type := 1, ssc_mode := 1 }).sscMode = some "SSC_MODE_1")
      ∧ (∃ d, SMF.create_sm_context [] (AMF.build_smf_request
            { pdu_session_id := 1, pti := 1, pdu_session_type := 1, ssc_mode := 1 })
            (some "http://127.0.0.1:9002")
            (some { upfSeid := some "seid-1", n3Endpoint := none }) =
            Except.error { status := 400, detail := d })
      ∧ (AMF.process_pdu_session_establishment_request
           { pdu_session_id := 1, pti := 1, pdu_session_type := 1, ssc_mode := 1 }
           "sess-uuid-1" [] (some "http://127.0.0.1:9001") []
           (some "http://127.0.0.1:9002")
           (some { upfSeid := some "seid-1", n3Endpoint := none })).2 =
          { status := "PDU_SESSION_ESTABLISHMENT_ACCEPT", pdu_session_id := 1,
            allocated_ip := some "192.168.1.100", via_smf := false }) :=
  ⟨rfl, C10_delegation_rejected_then_local_fallback
    { pdu_session_id := 1, pti := 1, pdu_session_type := 1, ssc_mode := 1 }
    "sess-uuid-1" [] (some "http://127.0.0.1:9001") []
    (some "http://127.0.0.1:9002")
    (some { upfSeid := some "seid-1", n3Endpoint := none }) rfl⟩

/-!
## UPF (upf_enhanced.py)

The enhanced UPF: PFCP session store, IPv4/IPv6 pools, GTP tunnels,
per-session traffic statistics, the `qos_enforcement` dict (seeded at boot
with the per-5QI defaults keyed by `str(fiveqi)`, later extended by
`enforce_qos_policies` with keys `f"{upf_seid}_{qer_id}"`), and the
`QosScheduler` with its token buckets and priority queues.  `uuid4` draws
(the UPF SEID and the tunnel ids) and `datetime.utcnow()` (as whole
seconds) are parameters.
-/

namespace UPF

/-- Python `x or default` for an optional integer field. -/
def pyOrNat (o : Option Nat) (dflt : Nat) : Nat :=
  match o with
  | some n => if n = 0 then dflt else n
  | none => dflt

/-- Python `x or default` for an optional string field. -/
def pyOrStr (o : Option String) (dflt : String) : String :=
  match o with
  | some s => if s = "" then dflt else s
  | none => dflt

/-- OuterHeaderCreation (upf_enhanced.py lines 75-82), reduced to the
fields the UPF reads. -/
structure OuterHeaderCreation where
  outer_header_creation_description : Nat
  teid : Option String
  ipv4_address : Option String
  ipv6_address : Option String
deriving Repr, DecidableEq

/-- FTeid (upf_enhanced.py lines 84-90). -/
structure FTeid where
  v4 : Bool
  v6 : Bool
  teid : String
  ipv4_address : Option String
  ipv6_address : Option String
deriving Repr, DecidableEq

/-- ForwardingParameters (upf_enhanced.py lines 124-134), reduced. -/
structure ForwardingParameters where
  destination_interface : Nat
  outer_header_creation : Option OuterHeaderCreation
deriving Repr, DecidableEq

/-- Pdi (upf_enhanced.py lines 107-122), reduced. -/
structure Pdi where
  source_interface : Nat
  f_teid : Option FTeid
  network_instance : Option String
  qfi : Option Nat
deriving Repr, DecidableEq

/-- CreatePdr (upf_enhanced.py lines 136-144), reduced. -/
structure CreatePdr where
  pdr_id : Nat
  precedence : Nat
  pdi : Pdi
  far_id : Option Nat
deriving Repr, DecidableEq

/-- CreateFar (upf_enhanced.py lines 146-151), reduced. -/
structure CreateFar where
  far_id : Nat
  apply_action : Nat
  forwarding_parameters : Option ForwardingParameters
deriving Repr, DecidableEq

/-- Mbr (upf_enhanced.py lines 157-159). -/
structure Mbr where
  ul_mbr : Nat
  dl_mbr : Nat
deriving Repr, DecidableEq

/-- Gbr (upf_enhanced.py lines 161-163). -/
structure Gbr where
  ul_gbr : Nat
  dl_gbr : Nat
deriving Repr, DecidableEq

/-- CreateQer (upf_enhanced.py lines 165-176), reduced. -/
structure CreateQer where
  qer_id : Nat
  mbr : Option Mbr
  gbr : Option Gbr
  qfi : Option Nat
  averaging_window : Option Nat
deriving Repr, DecidableEq

/-- CreateUrr (upf_enhanced.py lines 178-199), reduced. -/
structure CreateUrr where
  urr_id : Nat
  measurement_method : Nat
  reporting_triggers : Nat
deriving Repr, DecidableEq

/-- QosParameters (upf_enhanced.py lines 233-243), reduced to the fields
the scheduler and handlers read. -/
structure QosParameters where
  fiveqi : Nat
  priority_level : Option Nat
  packet_delay_budget : Option Nat
  maximum_bitrate_ul : Option Nat
  maximum_bitrate_dl : Option Nat
  guaranteed_bitrate_ul : Option Nat
  guaranteed_bitrate_dl : Option Nat
  averaging_window : Option Nat
deriving Repr, DecidableEq

/-- TrafficStats (upf_enhanced.py lines 245-252); `last_activity` omitted. -/
structure TrafficStats where
  packets_ul : Nat
  packets_dl : Nat
  bytes_ul : Nat
  bytes_dl : Nat
  dropped_packets_ul : Nat
  dropped_packets_dl : Nat
deriving Repr, DecidableEq

/-- A freshly initialized TrafficStats record. -/
def TrafficStats.init : TrafficStats :=
  { packets_ul := 0, packets_dl := 0, bytes_ul := 0, bytes_dl := 0,
    dropped_packets_ul := 0, dropped_packets_dl := 0 }

/-- A `gtp_tunnels` entry (upf_enhanced.py lines 351-363). -/
structure TunnelInfo where
  local_teid : String
  local_ipv4 : Option String
  local_ipv6 : Option String
  remote_teid : Option String
  remote_ipv4 : Option String
  remote_ipv6 : Option String
  state : String
  stats : TrafficStats
deriving Repr, DecidableEq

/-- A token bucket (upf_enhanced.py lines 456-461); `last_refill` is the
wall clock in whole seconds, so the `int(time_diff * refill_rate)` refill
is exact. -/
structure TokenBucket where
  tokens : Nat
  max_tokens : Nat
  last_refill : Nat
  refill_rate : Nat
deriving Repr, DecidableEq

/-- A GTP-U packet (upf_enhanced.py lines 229-231), reduced to the fields
the scheduler reads. -/
structure GtpuPacket where
  teid : String
  payload : String
deriving Repr, DecidableEq

/-- The QosScheduler state (upf_enhanced.py lines 433-435). -/
structure QosScheduler where
  token_buckets : List (String × TokenBucket)
  priority_queues : List (String × List GtpuPacket)
deriving Repr, DecidableEq

/-- The result dict of allocate_ip_address; `ipv6Net` renders the source
key "ipv6_prefix" (the /64 subnet string). -/
structure AllocResult where
  ipv4 : Option String
  ipv6 : Option String
  ipv6Net : Option String
deriving Repr, DecidableEq

/-- A `pfcp_sessions` entry (upf_enhanced.py lines 661-674), with the
rule dicts keyed by their integer ids. -/
structure SessionContext where
  upf_seid : String
  smf_seid : String
  node_id : String
  allocated_ips : AllocResult
  pdrs : List (Nat × CreatePdr)
  fars : List (Nat × CreateFar)
  qers : List (Nat × CreateQer)
  urrs : List (Nat × CreateUrr)
  gtp_tunnels : List String
  state : String
deriving Repr, DecidableEq

/-- PfcpSessionEstablishmentRequest (upf_enhanced.py lines 201-213), reduced. -/
structure PfcpSessionEstablishmentRequest where
  node_id : String
  f_seid : FTeid
  create_pdr : List CreatePdr
  create_far : List CreateFar
  create_urr : Option (List CreateUrr)
  create_qer : Option (List CreateQer)
  pdn_type : Option String
deriving Repr, DecidableEq

/-- The whole module-level UPF state: the five storage dicts
(upf_enhanced.py lines 254-261), the pools and allocated sets of
UPF_Enhanced.__init__, and the scheduler.  The pools are carried as their
`hosts()` enumerations (`ipv6_pool` pairs each first host with its /64
subnet string). -/
structure UpfState where
  ipv4_pool : List String
  allocated_ipv4 : List String
  ipv6_pool : List (String × String)
  allocated_ipv6 : List String
  pfcp_sessions : List (String × SessionContext)
  gtp_tunnels : List (String × TunnelInfo)
  traffic_statistics : List (String × TrafficStats)
  qos_enforcement : List (String × QosParameters)
  sched : QosScheduler
deriving Repr, DecidableEq

/-- The per-5QI defaults installed by _initialize_default_qos
(upf_enhanced.py lines 282-307) under keys `str(fiveqi)`. -/
def default_qos_enforcement : List (String × QosParameters) :=
  [("1", { fiveqi := 1, priority_level := some 20, packet_delay_budget := some 100,
           maximum_bitrate_ul := none, maximum_bitrate_dl := none,
           guaranteed_bitrate_ul := none, guaranteed_bitrate_dl := none,
           averaging_window := none }),
   ("2", { fiveqi := 2, priority_level := some 40, packet_delay_budget := some 150,
           maximum_bitrate_ul := none, maximum_bitrate_dl := none,
           guaranteed_bitrate_ul := none, guaranteed_bitrate_dl := none,
           averaging_window := none }),
   ("3", { fiveqi := 3, priority_level := some 30, packet_delay_budget := some 50,
           maximum_bitrate_ul := none, maximum_bitrate_dl := none,
           guaranteed_bitrate_ul := none, guaranteed_bitrate_dl := none,
           averaging_window := none }),
   ("4", { fiveqi := 4, priority_level := some 50, packet_delay_budget := some 300,
           maximum_bitrate_ul := none, maximum_bitrate_dl := none,
           guaranteed_bitrate_ul := none, guaranteed_bitrate_dl := none,
           averaging_window := none }),
   ("5", { fiveqi := 5, priority_level := some 10, packet_delay_budget := some 100,
           maximum_bitrate_ul := none, maximum_bitrate_dl := none,
           guaranteed_bitrate_ul := none, guaranteed_bitrate_dl := none,
           averaging_window := none }),
   ("6", { fiveqi := 6, priority_level := some 60, packet_delay_budget := some 300,
           maximum_bitrate_ul := none, maximum_bitrate_dl := none,
           guaranteed_bitrate_ul := none, guaranteed_bitrate_dl := none,
           averaging_window := none }),
   ("7", { fiveqi := 7, priority_level := some 70, packet_delay_budget := some 100,
           maximum_bitrate_ul := none, maximum_bitrate_dl := none,
           guaranteed_bitrate_ul := none, guaranteed_bitrate_dl := none,
           averaging_window := none }),
   ("8", { fiveqi := 8, priority_level := some 80, packet_delay_budget := some 300,
           maximum_bitrate_ul := none, maximum_bitrate_dl := none,
           guaranteed_bitrate_ul := none, guaranteed_bitrate_dl := none,
           averaging_window := none }),
   ("9", { fiveqi := 9, priority_level := some 90, packet_delay_budget := some 300,
           maximum_bitrate_ul := none, maximum_bitrate_dl := none,
           guaranteed_bitrate_ul := none, guaranteed_bitrate_dl := none,
           averaging_window := none }),
   ("65", { fiveqi := 65, priority_level := some 7, packet_delay_budget := some 75,
            maximum_bitrate_ul := none, maximum_bitrate_dl := none,
            guaranteed_bitrate_ul := none, guaranteed_bitrate_dl := none,
            averaging_window := none }),
   ("66", { fiveqi := 66, priority_level := some 20, packet_delay_budget := some 100,
            maximum_bitrate_ul := none, maximum_bitrate_dl := none,
            guaranteed_bitrate_ul := none, guaranteed_bitrate_dl := none,
            averaging_window := none }),
   ("67", { fiveqi := 67, priority_level := some 15, packet_delay_budget := some 100,
            maximum_bitrate_ul := none, maximum_bitrate_dl := none,
            guaranteed_bitrate_ul := none, guaranteed_bitrate_dl := none,
            averaging_window := none }),
   ("75", { fiveqi := 75, priority_level := some 25, packet_delay_budget := some 50,
            maximum_bitrate_ul := none, maximum_bitrate_dl := none,
            guaranteed_bitrate_ul := none, guaranteed_bitrate_dl := none,
            averaging_window := none }),
   ("79", { fiveqi := 79, priority_level := some 65, packet_delay_budget := some 50,
            maximum_bitrate_ul := none, maximum_bitrate_dl := none,
            guaranteed_bitrate_ul := none, guaranteed_bitrate_dl := none,
            averaging_window := none }),
   ("80", { fiveqi := 80, priority_level := some 68, packet_delay_budget := some 10,
            maximum_bitrate_ul := none, maximum_bitrate_dl := none,
            guaranteed_bitrate_ul := none, guaranteed_bitrate_dl := none,
            averaging_window := none }),
   ("82", { fiveqi := 82, priority_level := some 19, packet_delay_budget := some 10,
            maximum_bitrate_ul := none, maximum_bitrate_dl := none,
            guaranteed_bitrate_ul := none, guaranteed_bitrate_dl := none,
            averaging_window := none }),
   ("83", { fiveqi := 83, priority_level := some 22, packet_delay_budget := some 10,
            maximum_bitrate_ul := none, maximum_bitrate_dl := none,
            guaranteed_bitrate_ul := none, guaranteed_bitrate_dl := none,
            averaging_window := none }),
   ("84", { fiveqi := 84, priority_level := some 24, packet_delay_budget := some 30,
            maximum_bitrate_ul := none, maximum_bitrate_dl := none,
            guaranteed_bitrate_ul := none, guaranteed_bitrate_dl := none,
            averaging_window := none }),
   ("85", { fiveqi := 85, priority_level := some 21, packet_delay_budget := some 5,
            maximum_bitrate_ul := none, maximum_bitrate_dl := none,
            guaranteed_bitrate_ul := none, guaranteed_bitrate_dl := none,
            averaging_window := none })]

/-- The boot state with a parametric IPv4 pool (the source hardcodes
192.168.100.0/24; S3 configures a /30).  All dicts empty except the
per-5QI QoS defaults. -/
def bootState (ipv4_pool : List String) (ipv6_pool : List (String × String)) : UpfState :=
  { ipv4_pool := ipv4_pool, allocated_ipv4 := [],
    ipv6_pool := ipv6_pool, allocated_ipv6 := [],
    pfcp_sessions := [], gtp_tunnels := [], traffic_statistics := [],
    qos_enforcement := default_qos_enforcement,
    sched := { token_buckets := [], priority_queues := [] } }

/-- UPF_Enhanced.allocate_ip_address (upf_enhanced.py lines 309-338):
first free host of the pool enumeration for each requested family;
exhaustion leaves the corresponding key absent from the result. -/
def allocate_ip_address (st : UpfState) (pdn_type : String) : UpfState × AllocResult :=
  let step4 :=
    if pdn_type == "IPV4" || pdn_type == "IPV4V6" then
      match st.ipv4_pool.find? (fun ip => !st.allocated_ipv4.contains ip) with
      | some ip => ({ st with allocated_ipv4 := st.allocated_ipv4 ++ [ip] },
                    some ip)
      | none => (st, none)
    else (st, none)
  let st1 := step4.1
  let step6 :=
    if pdn_type == "IPV6" || pdn_type == "IPV4V6" then
      match st1.ipv6_pool.find? (fun p => !st1.allocated_ipv6.contains p.1) with
      | some p => ({ st1 with allocated_ipv6 := st1.allocated_ipv6 ++ [p.1] },
                   some p)
      | none => (st1, none)
    else (st1, none)
  (step6.1,
   { ipv4 := step4.2, ipv6 := step6.2.map (fun p => p.1),
     ipv6Net := step6.2.map (fun p => p.2) })

/-- UPF_Enhanced.release_ip_address (upf_enhanced.py lines 340-345). -/
def release_ip_address (st : UpfState) (ip : String) : UpfState :=
  { st with
    allocated_ipv4 := if st.allocated_ipv4.contains ip
                      then st.allocated_ipv4.filter (fun x => x != ip)
                      else st.allocated_ipv4,
    allocated_ipv6 := if st.allocated_ipv6.contains ip
                      then st.allocated_ipv6.filter (fun x => x != ip)
                      else st.allocated_ipv6 }

/-- UPF_Enhanced.create_gtp_tunnel (upf_enhanced.py lines 347-373); the
fresh uuid4 is passed as `tunnel_id`. -/
def create_gtp_tunnel (st : UpfState) (tunnel_id : String) (f_teid : FTeid)
    (far : CreateFar) : UpfState :=
  { st with gtp_tunnels := PyDict.aset st.gtp_tunnels tunnel_id
                ({ local_teid := f_teid.teid, local_ipv4 := f_teid.ipv4_address,
                   local_ipv6 := f_teid.ipv6_address,
                   remote_teid := (far.forwarding_parameters.bind
                     (fun fp => fp.outer_header_creation)).bind OuterHeaderCreation.teid,
                   remote_ipv4 := (far.forwarding_parameters.bind
                     (fun fp => fp.outer_header_creation)).bind OuterHeaderCreation.ipv4_address,
                   remote_ipv6 := (far.forwarding_parameters.bind
                     (fun fp => fp.outer_header_creation)).bind OuterHeaderCreation.ipv6_address,
                   state := "ACTIVE", stats := TrafficStats.init }) }

/-- The QoS-parameter lookup of QosScheduler.enforce_qos (upf_enhanced.py
lines 441-445): the FIRST entry whose KEY CONTAINS the tunnel id as a
substring — the keys are `str(fiveqi)` and `f"{upf_seid}_{qer_id}"`, none
of which contains a fresh tunnel uuid. -/
def findQosParams (qe : List (String × QosParameters)) (tunnel_id : String) :
    Option QosParameters :=
  (qe.find? (fun kv => strContains kv.1 tunnel_id)).map (fun kv => kv.2)

/-- QosScheduler._get_priority_from_fiveqi (upf_enhanced.py lines 498-505). -/
def get_priority_from_fiveqi (fiveqi : Nat) : Nat :=
  match fiveqi with
  | 1 => 20 | 2 => 40 | 3 => 30 | 4 => 50 | 5 => 10 | 6 => 60 | 7 => 70 | 8 => 80
  | 9 => 90 | 65 => 7 | 66 => 20 | 67 => 15 | 75 => 25 | 79 => 65 | 80 => 68
  | 82 => 19 | 83 => 22 | 84 => 24 | 85 => 21
  | _ => 90

/-- QosScheduler._process_priority_queues (upf_enhanced.py lines 507-516):
iterates the queues sorted by their priority suffix and pops the head of
every nonempty queue; since exactly one packet is popped from each queue,
the resulting state is the pointwise tail (the sort order only affects
the processing log). -/
def process_priority_queues (pq : List (String × List GtpuPacket)) :
    List (String × List GtpuPacket) :=
  pq.map (fun kv => (kv.1, kv.2.tail))

/-- QosScheduler.enforce_qos (upf_enhanced.py lines 437-496).  `now` is
the wall clock in whole seconds.  When no qos_enforcement key contains the
tunnel id, the packet is admitted with no state change; when a bucket
applies, the refill-then-compare token bucket runs; otherwise the packet
is enqueued on the 5QI-derived priority queue and admitted. -/
def enforce_qos (qe : List (String × QosParameters)) (sched : QosScheduler)
    (tunnel_id : String) (packet : GtpuPacket) (direction : String) (now : Nat) :
    Bool × QosScheduler :=
  match findQosParams qe tunnel_id with
  | none => (true, sched)
  | some qos_params =>
    let bucket_key := tunnel_id ++ "_" ++ direction
    let sched1 :=
      if PyDict.hasKey sched.token_buckets bucket_key then sched
      else
        match (if direction == "uplink" then qos_params.maximum_bitrate_ul
               else qos_params.maximum_bitrate_dl) with
        | some max_rate =>
          if max_rate ≠ 0 then
            { sched with token_buckets := PyDict.aset sched.token_buckets bucket_key
                              ({ tokens := max_rate / 8, max_tokens := max_rate / 8,
                                 last_refill := now, refill_rate := max_rate / 8 }) }
          else sched
        | none => sched
    match PyDict.aget sched1.token_buckets bucket_key with
    | some bucket =>
      let tokens2 := min bucket.max_tokens
        (bucket.tokens + (now - bucket.last_refill) * bucket.refill_rate)
      if packet.payload.length ≤ tokens2 then
        (true, { sched1 with token_buckets := PyDict.aset sched1.token_buckets bucket_key
                                 ({ bucket with tokens := tokens2 - packet.payload.length,
                                                last_refill := now }) })
      else
        (false, { sched1 with token_buckets := PyDict.aset sched1.token_buckets bucket_key
                                  ({ bucket with tokens := tokens2, last_refill := now }) })
    | none =>
      let queue_key := tunnel_id ++ "_" ++
        toString (get_priority_from_fiveqi qos_params.fiveqi)
      let pq1 := if PyDict.hasKey sched1.priority_queues queue_key
                 then sched1.priority_queues
                 else PyDict.aset sched1.priority_queues queue_key []
      let pq2 := PyDict.aset pq1 queue_key
        ((PyDict.aget pq1 queue_key).getD [] ++ [packet])
      (true, { sched1 with priority_queues := process_priority_queues pq2 })

/-- UPF_Enhanced.process_gtp_packet (upf_enhanced.py lines 375-409):
updates the tunnel counters, runs the scheduler, and on a drop bumps the
direction's dropped counter; an unknown tunnel returns False untouched. -/
def process_gtp_packet (st : UpfState) (tunnel_id : String) (packet : GtpuPacket)
    (direction : String) (now : Nat) : Bool × UpfState :=
  match PyDict.aget st.gtp_tunnels tunnel_id with
  | none => (false, st)
  | some tunnel =>
    let packet_size := packet.payload.length
    let stats1 :=
      if direction == "uplink" then
        ({ tunnel.stats with packets_ul := tunnel.stats.packets_ul + 1,
                             bytes_ul := tunnel.stats.bytes_ul + packet_size })
      else
        ({ tunnel.stats with packets_dl := tunnel.stats.packets_dl + 1,
                             bytes_dl := tunnel.stats.bytes_dl + packet_size })
    match enforce_qos st.qos_enforcement st.sched tunnel_id packet direction now with
    | (true, sched2) =>
      (true, { st with
        gtp_tunnels := PyDict.aset st.gtp_tunnels tunnel_id ({ tunnel with stats := stats1 }),
        sched := sched2 })
    | (false, sched2) =>
      let stats2 :=
        if direction == "uplink" then
          { stats1 with dropped_packets_ul := stats1.dropped_packets_ul + 1 }
        else
          { stats1 with dropped_packets_dl := stats1.dropped_packets_dl + 1 }
      (false, { st with
        gtp_tunnels := PyDict.aset st.gtp_tunnels tunnel_id ({ tunnel with stats := stats2 }),
        sched := sched2 })

/-- The POST /gtp-u/process-packet endpoint (upf_enhanced.py lines
874-914): status "SUCCESS" when the packet was forwarded, "DROPPED" when
the scheduler rejected it (or the tunnel is unknown). -/
def process_gtp_packet_endpoint (st : UpfState) (tunnel_id : String)
    (packet : GtpuPacket) (direction : String) (now : Nat) : UpfState × String :=
  match process_gtp_packet st tunnel_id packet direction now with
  | (ok, st2) => (st2, if ok then "SUCCESS" else "DROPPED")

/-- UPF_Enhanced.enforce_qos_policies (upf_enhanced.py lines 411-428):
stores one QosParameters per QER under key `f"{session_id}_{qer_id}"`
(`qer.qfi or 9` is Python truthiness). -/
def enforce_qos_policies (st : UpfState) (session_id : String)
    (qer_list : List CreateQer) : UpfState :=
  qer_list.foldl (fun st qer =>
    { st with qos_enforcement := PyDict.aset st.qos_enforcement
                  (session_id ++ "_" ++ toString qer.qer_id)
                  ({ fiveqi := pyOrNat qer.qfi 9, priority_level := some 1,
                     packet_delay_budget := none,
                     maximum_bitrate_ul := qer.mbr.map Mbr.ul_mbr,
                     maximum_bitrate_dl := qer.mbr.map Mbr.dl_mbr,
                     guaranteed_bitrate_ul := qer.gbr.map Gbr.ul_gbr,
                     guaranteed_bitrate_dl := qer.gbr.map Gbr.dl_gbr,
                     averaging_window := qer.averaging_window }) }) st

/-- The response of the establishment endpoint (upf_enhanced.py lines
720-738), reduced. -/
structure EstablishmentResponse where
  messageType : Nat
  cause : Nat
  upSeidTeid : String
  allocatedUeIpAddresses : AllocResult
  createdPdrIds : List Nat
deriving Repr, DecidableEq

/-- The POST /pfcp/v1/sessions handler (upf_enhanced.py lines 642-750).
`upf_seid` is the uuid4 draw for the session; `tunnelId n` is the uuid4
draw for the n-th created tunnel.  Nothing in the handler can fail: IPv4
exhaustion just leaves `allocatedUeIpAddresses` without an "ipv4" key and
the response cause stays REQUEST_ACCEPTED (1). -/
def pfcp_session_establishment (st : UpfState) (req : PfcpSessionEstablishmentRequest)
    (upf_seid : String) (tunnelId : Nat → String) :
    UpfState × EstablishmentResponse :=
  let alloc := allocate_ip_address st (pyOrStr req.pdn_type "IPV4")
  let st1 := alloc.1
  let pdrStep := req.create_pdr.foldl
    (fun (acc : UpfState × List String × Nat) pdr =>
      match pdr.pdi.f_teid with
      | some ft =>
        match req.create_far.find? (fun f => pdr.far_id == some f.far_id) with
        | some far =>
          (create_gtp_tunnel acc.1 (tunnelId acc.2.2) ft far,
           (acc.2.1 ++ [tunnelId acc.2.2], acc.2.2 + 1))
        | none => acc
      | none => acc)
    (st1, ([], 0))
  let st2 := pdrStep.1
  let st3 :=
    match req.create_qer with
    | some qers => if qers.isEmpty then st2 else enforce_qos_policies st2 upf_seid qers
    | none => st2
  let session : SessionContext :=
    { upf_seid := upf_seid, smf_seid := req.f_seid.teid, node_id := req.node_id,
      allocated_ips := alloc.2,
      pdrs := req.create_pdr.foldl (fun d p => PyDict.aset d p.pdr_id p) [],
      fars := req.create_far.foldl (fun d f => PyDict.aset d f.far_id f) [],
      qers := (req.create_qer.getD []).foldl (fun d q => PyDict.aset d q.qer_id q) [],
      urrs := (req.create_urr.getD []).foldl (fun d u => PyDict.aset d u.urr_id u) [],
      gtp_tunnels := pdrStep.2.1, state := "ACTIVE" }
  let st4 := { st3 with
    pfcp_sessions := PyDict.aset st3.pfcp_sessions upf_seid session,
    traffic_statistics := PyDict.aset st3.traffic_statistics upf_seid TrafficStats.init }
  (st4,
   { messageType := 51, cause := 1, upSeidTeid := upf_seid,
     allocatedUeIpAddresses := alloc.2,
     createdPdrIds := req.create_pdr.map CreatePdr.pdr_id })

/-- The `mbr` member of an updateQer entry (camelCase keys, read with
`.get`, upf_enhanced.py lines 796-798). -/
structure MbrUpdate where
  ulMbr : Option Nat
  dlMbr : Option Nat
deriving Repr, DecidableEq

/-- An updatePdr entry, reduced to the id the handler reads. -/
structure UpdatePdr where
  pdrId : Nat
deriving Repr, DecidableEq

/-- An updateFar entry, reduced to the id the handler reads. -/
structure UpdateFar where
  farId : Nat
deriving Repr, DecidableEq

/-- An updateQer entry, reduced to the fields the handler reads. -/
structure UpdateQer where
  qerId : Nat
  mbr : Option MbrUpdate
deriving Repr, DecidableEq

/-- The PATCH body (a raw dict in the source; absent arrays are `none`). -/
structure ModificationRequest where
  updatePdr : Option (List UpdatePdr)
  updateFar : Option (List UpdateFar)
  updateQer : Option (List UpdateQer)
deriving Repr, DecidableEq

/-- The modification response (upf_enhanced.py lines 807-811). -/
structure ModificationResponse where
  messageType : Nat
  cause : Nat
  modificationsApplied : List String
deriving Repr, DecidableEq

/-- The body of the PATCH /pfcp/v1/sessions/{seid} handler before its
catch-all (upf_enhanced.py lines 758-811).  The rule-dict `.update(...)`
merges are modelled as keeping the typed record (their merged keys are
never read back); the QoS-enforcement MBR reflection of lines 792-798 is
modelled exactly.  The unknown-seid branch raises 404 here. -/
def pfcp_session_modification_inner (st : UpfState) (seid : String)
    (mreq : ModificationRequest) :
    Except HttpError (UpfState × ModificationResponse) :=
  match PyDict.aget st.pfcp_sessions seid with
  | none => .error { status := 404, detail := "PFCP Session not found" }
  | some session =>
    let applied1 := (mreq.updatePdr.getD []).foldl
      (fun (acc : List String) u =>
        if PyDict.hasKey session.pdrs u.pdrId
        then acc ++ ["PDR " ++ toString u.pdrId ++ " updated"] else acc) []
    let applied2 := (mreq.updateFar.getD []).foldl
      (fun (acc : List String) u =>
        if PyDict.hasKey session.fars u.farId
        then acc ++ ["FAR " ++ toString u.farId ++ " updated"] else acc) applied1
    let qerStep := (mreq.updateQer.getD []).foldl
      (fun (acc : List (String × QosParameters) × List String) u =>
        if PyDict.hasKey session.qers u.qerId then
          let qos_key := seid ++ "_" ++ toString u.qerId
          let qe2 :=
            match PyDict.aget acc.1 qos_key with
            | some qos_params =>
              match u.mbr with
              | some m => PyDict.aset acc.1 qos_key
                  ({ qos_params with maximum_bitrate_ul := m.ulMbr,
                                     maximum_bitrate_dl := m.dlMbr })
              | none => acc.1
            | none => acc.1
          (qe2, acc.2 ++ ["QER " ++ toString u.qerId ++ " updated"])
        else acc)
      (st.qos_enforcement, applied2)
    .ok ({ st with qos_enforcement := qerStep.1 },
         { messageType := 53, cause := 1, modificationsApplied := qerStep.2 })

/-- The PATCH /pfcp/v1/sessions/{seid} handler with its catch-all
`except Exception` (upf_enhanced.py lines 813-816): every exception —
including the HTTPException(404) raised for an unknown seid — resurfaces
as a 500 "Session modification failed: ...". -/
def pfcp_session_modification (st : UpfState) (seid : String)
    (mreq : ModificationRequest) :
    Except HttpError (UpfState × ModificationResponse) :=
  match pfcp_session_modification_inner st seid mreq with
  | .ok r => .ok r
  | .error e => .error { status := 500,
                         detail := "Session modification failed: " ++
                           toString e.status ++ ": " ++ e.detail }

/-- The deletion response (upf_enhanced.py lines 863-866). -/
structure DeletionResponse where
  messageType : Nat
  cause : Nat
deriving Repr, DecidableEq

/-- The body of the DELETE /pfcp/v1/sessions/{seid} handler before its
catch-all (upf_enhanced.py lines 824-866): release the allocated IPs,
drop the session's tunnels, drop every qos_enforcement key containing the
seid, drop the statistics, drop the session.  The unknown-seid branch
raises 404 here. -/
def pfcp_session_deletion_inner (st : UpfState) (seid : String) :
    Except HttpError (UpfState × DeletionResponse) :=
  match PyDict.aget st.pfcp_sessions seid with
  | none => .error { status := 404, detail := "PFCP Session not found" }
  | some session =>
    let st1 :=
      match session.allocated_ips.ipv4 with
      | some ip => release_ip_address st ip
      | none => st
    let st2 :=
      match session.allocated_ips.ipv6 with
      | some ip => release_ip_address st1 ip
      | none => st1
    let st3 := { st2 with
      gtp_tunnels := session.gtp_tunnels.foldl
        (fun d tid => if PyDict.hasKey d tid then PyDict.adel d tid else d)
        st2.gtp_tunnels,
      qos_enforcement := st2.qos_enforcement.filter
        (fun kv => !strContains kv.1 seid),
      traffic_statistics := if PyDict.hasKey st2.traffic_statistics seid
        then PyDict.adel st2.traffic_statistics seid else st2.traffic_statistics,
      pfcp_sessions := PyDict.adel st2.pfcp_sessions seid }
    .ok (st3, { messageType := 55, cause := 1 })

/-- The DELETE /pfcp/v1/sessions/{seid} handler with its catch-all
`except Exception` (upf_enhanced.py lines 868-871): every exception —
including the HTTPException(404) raised for an unknown seid — resurfaces
as a 500 "Session deletion failed: ...". -/
def pfcp_session_deletion (st : UpfState) (seid : String) :
    Except HttpError (UpfState × DeletionResponse) :=
  match pfcp_session_deletion_inner st seid with
  | .ok r => .ok r
  | .error e => .error { status := 500,
                         detail := "Session deletion failed: " ++
                           toString e.status ++ ": " ++ e.detail }

end UPF

theorem PyDict.aget_of_not_hasKey {κ α : Type} [BEq κ] {l : List (κ × α)} {k : κ}
    (h : hasKey l k = false) : aget l k = none := by
  unfold PyDict.hasKey at h
  rw [List.any_eq_false] at h
  unfold PyDict.aget
  rw [List.find?_eq_none.mpr h]
  rfl

/-- C6: PFCP session modification and deletion with an unknown seid raise
`HTTPException(404)` inside a `try` whose blanket `except Exception`
catches it and re-raises a 500 — so the client observes HTTP 500, not the
claimed 404. -/
theorem C6_unknown_seid_returns_500 :
    ∀ (st : UPF.UpfState) (seid : String) (mreq : UPF.ModificationRequest),
      PyDict.hasKey st.pfcp_sessions seid = false →
      UPF.pfcp_session_modification st seid mreq =
        Except.error { status := 500,
                       detail := "Session modification failed: 404: PFCP Session not found" }
      ∧ UPF.pfcp_session_deletion st seid =
        Except.error { status := 500,
                       detail := "Session deletion failed: 404: PFCP Session not found" } := by
  intro st seid mreq h
  have hget : PyDict.aget st.pfcp_sessions seid = none := PyDict.aget_of_not_hasKey h
  constructor
  · unfold UPF.pfcp_session_modification UPF.pfcp_session_modification_inner
    rw [hget]
    rfl
  · unfold UPF.pfcp_session_deletion UPF.pfcp_session_deletion_inner
    rw [hget]
    rfl

/-- C6 witness: the theorem applied at the boot state (no sessions) and a
concrete unknown seid. -/
theorem C6_witness :
    UPF.pfcp_session_modification (UPF.bootState [] []) "seid-unknown"
        { updatePdr := none, updateFar := none, updateQer := none } =
      Except.error { status := 500,
                     detail := "Session modification failed: 404: PFCP Session not found" }
    ∧ UPF.pfcp_session_deletion (UPF.bootState [] []) "seid-unknown" =
      Except.error { status := 500,
                     detail := "Session deletion failed: 404: PFCP Session not found" } :=
  C6_unknown_seid_returns_500 (UPF.bootState [] []) "seid-unknown"
    { updatePdr := none, updateFar := none, updateQer := none } rfl

namespace UPF

/-- A minimal IPv4-only PFCP establishment request (no rules), as used by
the S3 exhaustion scenario. -/
def s3req : PfcpSessionEstablishmentRequest :=
  { node_id := "smf.mnc001.mcc001.3gppnetwork.org",
    f_seid := { v4 := true, v6 := false, teid := "smf-seid-1",
                ipv4_address := some "127.0.0.1", ipv6_address := none },
    create_pdr := [], create_far := [], create_urr := none, create_qer := none,
    pdn_type := some "IPV4" }

/-- The two-host pool of scenario S3 (a /30: hosts .1 and .2). -/
def s3pool : List String := ["192.168.100.1", "192.168.100.2"]

/-- State after the first S3 establishment. -/
def s3state1 : UpfState :=
  (pfcp_session_establishment (bootState s3pool []) s3req "seid-1"
    (fun n => "tun-1-" ++ toString n)).1

/-- State after the second S3 establishment. -/
def s3state2 : UpfState :=
  (pfcp_session_establishment s3state1 s3req "seid-2"
    (fun n => "tun-2-" ++ toString n)).1

end UPF

/-- C2 counterexample: with a two-host IPv4 pool, the first two IPv4
session establishments succeed with the two hosts, but the third does NOT
fail with resource-exhausted (HTTP 503): the handler returns a normal
SESSION_ESTABLISHMENT_RESPONSE with cause REQUEST_ACCEPTED (1) whose
allocatedUeIpAddresses simply lacks the ipv4 key. -/
theorem C2_third_establishment_still_accepted :
    ((UPF.pfcp_session_establishment (UPF.bootState UPF.s3pool []) UPF.s3req "seid-1"
        (fun n => "tun-1-" ++ toString n)).2.allocatedUeIpAddresses.ipv4 =
      some "192.168.100.1")
    ∧ ((UPF.pfcp_session_establishment UPF.s3state1 UPF.s3req "seid-2"
        (fun n => "tun-2-" ++ toString n)).2.allocatedUeIpAddresses.ipv4 =
      some "192.168.100.2")
    ∧ ((UPF.pfcp_session_establishment UPF.s3state2 UPF.s3req "seid-3"
        (fun n => "tun-3-" ++ toString n)).2.cause = 1)
    ∧ ((UPF.pfcp_session_establishment UPF.s3state2 UPF.s3req "seid-3"
        (fun n => "tun-3-" ++ toString n)).2.allocatedUeIpAddresses.ipv4 = none) := by
  refine ⟨?_, ?_, rfl, ?_⟩ <;> decide

/-- C2 amended: the establishment handler has no resource-exhausted path
at all — when every host of the IPv4 pool is already allocated, an
IPv4-typed establishment still succeeds with cause REQUEST_ACCEPTED (1)
and no ipv4 key in allocatedUeIpAddresses (which always equals the
allocator's result); two establishments against a fresh two-host pool do
succeed with the two hosts. -/
theorem C2_exhausted_pool_still_accepts :
    (∀ (st : UPF.UpfState) (pdn : String),
      (∀ ip ∈ st.ipv4_pool, st.allocated_ipv4.contains ip = true) →
      (UPF.allocate_ip_address st pdn).2.ipv4 = none)
    ∧ (∀ (st : UPF.UpfState) (req : UPF.PfcpSessionEstablishmentRequest)
         (seid : String) (tid : Nat → String),
        (UPF.pfcp_session_establishment st req seid tid).2.cause = 1
        ∧ (UPF.pfcp_session_establishment st req seid tid).2.allocatedUeIpAddresses =
            (UPF.allocate_ip_address st (UPF.pyOrStr req.pdn_type "IPV4")).2) := by
  constructor
  · intro st pdn h4
    have hfind : st.ipv4_pool.find? (fun ip => !st.allocated_ipv4.contains ip) = none := by
      rw [List.find?_eq_none]
      intro ip hip
      rw [h4 ip hip]
      simp
    unfold UPF.allocate_ip_address
    by_cases hb : (pdn == "IPV4" || pdn == "IPV4V6") = true
    · simp only [hb, if_true, hfind]
    · simp only [Bool.not_eq_true] at hb
      simp only [hb]
      rfl
  · intro st req seid tid
    exact ⟨rfl, rfl⟩

/-- C2 witness: the amended theorem applied at the exhausted two-host
pool state reached after the two S3 establishments, and at a concrete
third establishment. -/
theorem C2_witness :
    ((∀ ip ∈ UPF.s3state2.ipv4_pool, UPF.s3state2.allocated_ipv4.contains ip = true)
      ∧ (UPF.allocate_ip_address UPF.s3state2 "IPV4").2.ipv4 = none)
    ∧ ((UPF.pfcp_session_establishment UPF.s3state2 UPF.s3req "seid-3"
          (fun n => "tun-3-" ++ toString n)).2.cause = 1
        ∧ (UPF.pfcp_session_establishment UPF.s3state2 UPF.s3req "seid-3"
            (fun n => "tun-3-" ++ toString n)).2.allocatedUeIpAddresses =
          (UPF.allocate_ip_address UPF.s3state2
            (UPF.pyOrStr UPF.s3req.pdn_type "IPV4")).2) :=
  ⟨⟨by decide, C2_exhausted_pool_still_accepts.1 UPF.s3state2 "IPV4" (by decide)⟩,
   C2_exhausted_pool_still_accepts.2 UPF.s3state2 UPF.s3req "seid-3"
     (fun n => "tun-3-" ++ toString n)⟩

namespace UPF

/-- When no qos_enforcement key contains the tunnel id as a substring —
which is the case for every tunnel uuid, since the keys are `str(fiveqi)`
and `f"{upf_seid}_{qer_id}"` — the scheduler admits every packet and
never consults a token bucket. -/
theorem enforce_qos_no_key_match (qe : List (String × QosParameters))
    (sched : QosScheduler) (tunnel_id : String) (packet : GtpuPacket)
    (direction : String) (now : Nat)
    (h : ∀ kv ∈ qe, strContains kv.1 tunnel_id = false) :
    enforce_qos qe sched tunnel_id packet direction now = (true, sched) := by
  unfold enforce_qos findQosParams
  rw [List.find?_eq_none.mpr (fun kv hkv => by rw [h kv hkv]; simp)]
  rfl

/-- The QER of the C1 scenario: MBR 8 bps both ways, so the claimed token
bucket would hold at most 8/8 = 1 byte and refill 1 byte per second. -/
def c1qer : CreateQer :=
  { qer_id := 1, mbr := some { ul_mbr := 8, dl_mbr := 8 }, gbr := none,
    qfi := some 9, averaging_window := none }

/-- The establishment request of the C1 scenario: one PDR with an F-TEID
(so a GTP tunnel is created), its FAR, and the MBR-bearing QER. -/
def c1req : PfcpSessionEstablishmentRequest :=
  { node_id := "smf.mnc001.mcc001.3gppnetwork.org",
    f_seid := { v4 := true, v6 := false, teid := "smf-seid-9",
                ipv4_address := some "127.0.0.1", ipv6_address := none },
    create_pdr := [{ pdr_id := 1, precedence := 200,
                     pdi := { source_interface := 0,
                              f_teid := some { v4 := true, v6 := false, teid := "1001",
                                               ipv4_address := some "192.168.200.10",
                                               ipv6_address := none },
                              network_instance := some "internet", qfi := some 9 },
                     far_id := some 1 }],
    create_far := [{ far_id := 1, apply_action := 2,
                     forwarding_parameters := some
                       { destination_interface := 1,
                         outer_header_creation := some
                           { outer_header_creation_description := 0, teid := some "2001",
                             ipv4_address := some "10.10.10.10", ipv6_address := none } } }],
    create_urr := none, create_qer := some [c1qer], pdn_type := some "IPV4" }

/-- The uuid4 drawn for the C1 session. -/
def c1seid : String := "aaaaaaaa-0000-0000-0000-000000000001"

/-- The uuid4 drawn for the C1 tunnel (distinct from the session seid). -/
def c1tun : String := "bbbbbbbb-0000-0000-0000-000000000000"

/-- State after the C1 establishment. -/
def c1state : UpfState :=
  (pfcp_session_establishment (bootState ["192.168.100.1"] []) c1req c1seid
    (fun n => "bbbbbbbb-0000-0000-0000-00000000000" ++ toString n)).1

/-- A 2-byte downlink GTP-U payload for the C1 scenario. -/
def c1packet : GtpuPacket := { teid := "1001", payload := "ab" }

/-- States after each of the three C1 packets (all at wall-clock 0). -/
def c1run1 : UpfState × String :=
  process_gtp_packet_endpoint c1state c1tun c1packet "downlink" 0

def c1run2 : UpfState × String :=
  process_gtp_packet_endpoint c1run1.1 c1tun c1packet "downlink" 0

def c1run3 : UpfState × String :=
  process_gtp_packet_endpoint c1run2.1 c1tun c1packet "downlink" 0

end UPF

/-- C1: the token-bucket rate limiter is never engaged for PFCP-installed
QERs, because the scheduler looks the QoS parameters up by testing
`tunnel_id in key` over `qos_enforcement`, whose keys are `str(fiveqi)`
and `f"{upf_seid}_{qer_id}"` — none of which contains a tunnel uuid.
Concretely: after establishing a session whose QER carries MBR 8 bps
(bucket capacity 8/8 = 1 byte, refill 1 byte/s), the session's QoS entry
is installed (keyed by seid), yet three 2-byte downlink packets processed
on the session's tunnel in the same wall-clock second are all reported
SUCCESS, 6 bytes are counted as received and none is dropped — instead of
the claimed admission of at most MBR/8 bytes plus one packet and DROPPED
reports for the excess. -/
theorem C1_token_bucket_never_engaged :
    ((PyDict.aget UPF.c1state.qos_enforcement (UPF.c1seid ++ "_1")).map
        (fun q => q.maximum_bitrate_dl) = some (some 8))
    ∧ UPF.c1run1.2 = "SUCCESS"
    ∧ UPF.c1run2.2 = "SUCCESS"
    ∧ UPF.c1run3.2 = "SUCCESS"
    ∧ ((PyDict.aget UPF.c1run3.1.gtp_tunnels UPF.c1tun).map
        (fun t => t.stats.bytes_dl) = some 6)
    ∧ ((PyDict.aget UPF.c1run3.1.gtp_tunnels UPF.c1tun).map
        (fun t => t.stats.dropped_packets_dl) = some 0)
    ∧ UPF.c1run3.1.sched.token_buckets = [] := by
  refine ⟨?_, ?_, ?_, ?_, ?_, ?_, ?_⟩ <;> decide

/-!
## PCF (pcf.py)

Session-management policy control.  The PATCH handler validates nothing
up front: the 404 for an unknown association id is raised inside the
`try` whose blanket `except Exception` converts every exception — that
404 as well as the `ValueError` thrown by `PolicyControlRequestTrigger(t)`
for an unknown trigger string — into a 500.
-/

namespace PCF

/-- The PolicyControlRequestTrigger enumeration values (pcf.py lines 31-57). -/
def trigger_values : List String :=
  ["PLMN_CH", "RES_MO_RE", "AC_TY_CH", "UE_IP_CH", "UE_MAC_CH", "AN_CH_COR", "US_RE",
   "APP_STA", "APP_STO", "AN_INFO", "CM_SES_FAIL", "PS_DA_OFF", "DEF_QOS_CH",
   "SE_AMBR_CH", "QOS_NOTIF", "NO_CREDIT", "REALLO_OF_CREDIT", "PRA_CH", "SAREA_CH",
   "SCNN_CH", "RE_TIMEOUT", "RES_RELEASE", "SUCC_RESOURCE_ALLO", "RAI_CH", "RFSP_CH",
   "PCC_UPD"]

/-- QosData (pcf.py lines 78-93), reduced to the fields the handlers read. -/
structure QosData where
  qosId : String
  fiveqi : Option Nat
  maxbrUl : Option String
  maxbrDl : Option String
  gbrUl : Option String
  gbrDl : Option String
  priorityLevel : Option Nat
deriving Repr, DecidableEq

/-- PccRule (pcf.py lines 105-118), reduced. -/
structure PccRule where
  pccRuleId : String
  appId : Option String
  precedence : Option Nat
  refQosData : Option (List String)
deriving Repr, DecidableEq

/-- SmPolicyDecision (pcf.py lines 159-182), reduced to the populated fields. -/
structure SmPolicyDecision where
  pccRules : List (String × PccRule)
  qosDecs : List (String × QosData)
  policyCtrlReqTriggers : List String
  revalidationTime : Nat
  supi : Option String
deriving Repr, DecidableEq

/-- The pre-seeded `qos_data_database` (pcf.py lines 217-261). -/
def qos_internet : QosData :=
  { qosId := "qos_internet", fiveqi := some 9, maxbrUl := none, maxbrDl := none,
    gbrUl := none, gbrDl := none, priorityLevel := some 8 }

def qos_ims : QosData :=
  { qosId := "qos_ims", fiveqi := some 5, maxbrUl := some "256 Kbps",
    maxbrDl := some "256 Kbps", gbrUl := some "128 Kbps", gbrDl := some "128 Kbps",
    priorityLevel := some 1 }

def qos_video : QosData :=
  { qosId := "qos_video", fiveqi := some 2, maxbrUl := some "5 Mbps",
    maxbrDl := some "25 Mbps", gbrUl := some "2 Mbps", gbrDl := some "10 Mbps",
    priorityLevel := some 4 }

def qos_gaming : QosData :=
  { qosId := "qos_gaming", fiveqi := some 83, maxbrUl := some "1 Mbps",
    maxbrDl := some "2 Mbps", gbrUl := some "500 Kbps", gbrDl := some "1 Mbps",
    priorityLevel := some 7 }

/-- The pre-seeded `pcc_rules_database` (pcf.py lines 264-319). -/
def rule_internet_default : PccRule :=
  { pccRuleId := "rule_internet_default", appId := none, precedence := some 1000,
    refQosData := some ["qos_internet"] }

def rule_ims_signalling : PccRule :=
  { pccRuleId := "rule_ims_signalling", appId := none, precedence := some 100,
    refQosData := some ["qos_ims"] }

def rule_video_streaming : PccRule :=
  { pccRuleId := "rule_video_streaming", appId := some "video_streaming_app",
    precedence := some 200, refQosData := some ["qos_video"] }

def rule_gaming : PccRule :=
  { pccRuleId := "rule_gaming", appId := some "gaming_app", precedence := some 300,
    refQosData := some ["qos_gaming"] }

/-- SmPolicyContextData (pcf.py lines 125-157), reduced to the fields the
decision algorithm reads. -/
structure SmPolicyContextData where
  supi : String
  pduSessionId : Nat
  pduSessionType : String
  dnn : String
  online : Option Bool
  offline : Option Bool
deriving Repr, DecidableEq

/-- The fixed trigger superset of pcf.py lines 347-362. -/
def default_policy_triggers : List String :=
  ["PLMN_CH", "RES_MO_RE", "AC_TY_CH", "UE_IP_CH", "AN_CH_COR", "US_RE", "APP_STA",
   "APP_STO", "DEF_QOS_CH", "SE_AMBR_CH", "QOS_NOTIF", "SUCC_RESOURCE_ALLO",
   "RAI_CH", "PCC_UPD"]

/-- PCF.create_sm_policy_decision (pcf.py lines 324-383).  `now` is the
wall clock in whole seconds; `revalidationTime = now + 24h`.  (Note
`context_data.online or True` in the source is always True.) -/
def create_sm_policy_decision (context_data : SmPolicyContextData) (now : Nat) :
    SmPolicyDecision :=
  let base : List (String × PccRule) := [("rule_internet_default", rule_internet_default)]
  let baseQos : List (String × QosData) := [("qos_internet", qos_internet)]
  let withDnn :=
    if context_data.dnn == "ims" then
      (base ++ [("rule_ims_signalling", rule_ims_signalling)],
       baseQos ++ [("qos_ims", qos_ims)])
    else if strContains context_data.dnn "video" then
      (base ++ [("rule_video_streaming", rule_video_streaming)],
       baseQos ++ [("qos_video", qos_video)])
    else if strContains context_data.dnn "gaming" then
      (base ++ [("rule_gaming", rule_gaming)], baseQos ++ [("qos_gaming", qos_gaming)])
    else (base, baseQos)
  { pccRules := withDnn.1, qosDecs := withDnn.2,
    policyCtrlReqTriggers := default_policy_triggers,
    revalidationTime := now + 86400, supi := some context_data.supi }

/-- The `context_updates` dict of the PATCH body, reduced to the keys the
trigger branches read. -/
structure QosRequirements where
  fiveqi : Option Nat
deriving Repr, DecidableEq

structure QosNotification where
  congestion_level : Option String
deriving Repr, DecidableEq

structure ContextUpdates where
  qos_requirements : Option QosRequirements
  app_id : Option String
  qos_notification : Option QosNotification
deriving Repr, DecidableEq

/-- The empty `context_updates`. -/
def ContextUpdates.empty : ContextUpdates :=
  { qos_requirements := none, app_id := none, qos_notification := none }

/-- The qos_voice record installed by the RES_MO_RE branch (pcf.py lines
404-410). -/
def qos_voice : QosData :=
  { qosId := "qos_voice", fiveqi := some 1, maxbrUl := none, maxbrDl := none,
    gbrUl := some "64 Kbps", gbrDl := some "64 Kbps", priorityLevel := none }

/-- One trigger branch of PCF.update_sm_policy_decision (pcf.py lines
397-438).  The APP_STO branch deletes `qosDecs["qos_video"]` without a
presence check, so a missing key raises (KeyError), modelled as an error
string. -/
def applyTrigger (cu : ContextUpdates) (d : SmPolicyDecision) (t : String) :
    Except String SmPolicyDecision :=
  if t == "RES_MO_RE" then
    match cu.qos_requirements with
    | some qr =>
      if qr.fiveqi == some 1 then
        .ok { d with qosDecs := PyDict.aset d.qosDecs "qos_voice" qos_voice }
      else .ok d
    | none => .ok d
  else if t == "APP_STA" then
    match cu.app_id with
    | some app =>
      if app == "video_streaming_app" then
        .ok { d with pccRules := PyDict.aset d.pccRules "rule_video_streaming"
                       rule_video_streaming,
                     qosDecs := PyDict.aset d.qosDecs "qos_video" qos_video }
      else .ok d
    | none => .ok d
  else if t == "APP_STO" then
    match cu.app_id with
    | some app =>
      if app == "video_streaming_app" && PyDict.hasKey d.pccRules "rule_video_streaming"
      then
        if PyDict.hasKey d.qosDecs "qos_video" then
          .ok { d with pccRules := PyDict.adel d.pccRules "rule_video_streaming",
                       qosDecs := PyDict.adel d.qosDecs "qos_video" }
        else .error "KeyError: qos_video"
      else .ok d
    | none => .ok d
  else if t == "QOS_NOTIF" then
    match cu.qos_notification with
    | some qn =>
      if qn.congestion_level == some "high" then
        .ok { d with qosDecs := d.qosDecs.map (fun kv =>
                if kv.2.fiveqi == some 9 then
                  (kv.1, { kv.2 with maxbrUl := some "500 Kbps",
                                     maxbrDl := some "1 Mbps" })
                else kv) }
      else .ok d
    | none => .ok d
  else .ok d

/-- PCF.update_sm_policy_decision (pcf.py lines 385-443): `ValueError`
for an unknown association, then the trigger folds, then the
revalidation-time refresh. -/
def update_sm_policy_decision (store : List (String × SmPolicyDecision))
    (policy_association_id : String) (triggers : List String) (cu : ContextUpdates)
    (now : Nat) : Except String SmPolicyDecision :=
  match PyDict.aget store policy_association_id with
  | none => .error ("ValueError: Policy association " ++ policy_association_id ++
                    " not found")
  | some current =>
    match triggers.foldlM (applyTrigger cu) current with
    | .error e => .error e
    | .ok d => .ok { d with revalidationTime := now + 86400 }

/-- The PATCH body (`update_data`), reduced. -/
structure UpdateData where
  triggers : Option (List String)
  context_updates : Option ContextUpdates
deriving Repr, DecidableEq

/-- The `[PolicyControlRequestTrigger(t) for t in update_data["triggers"]]`
comprehension (pcf.py line 584): ValueError on the first string outside
the enumeration. -/
def parse_triggers (ts : List String) : Except String (List String) :=
  if ts.all (fun t => trigger_values.contains t) then .ok ts
  else .error "ValueError: not a valid PolicyControlRequestTrigger"

/-- The body of the PATCH /npcf-smpolicycontrol/v1/sm-policies/{id}
handler before its catch-all (pcf.py lines 576-599): the unknown-id 404
and the trigger parse both happen inside the `try`.  Errors are carried
as strings, exactly what the catch-all will wrap. -/
def update_sm_policy_inner (store : List (String × SmPolicyDecision))
    (smPolicyId : String) (update_data : Option UpdateData) (now : Nat) :
    Except String (List (String × SmPolicyDecision) × SmPolicyDecision) :=
  if PyDict.hasKey store smPolicyId then
    let ts := match update_data with
              | some u => u.triggers.getD []
              | none => []
    match parse_triggers ts with
    | .error e => .error e
    | .ok triggers =>
      let cu := match update_data with
                | some u => u.context_updates.getD ContextUpdates.empty
                | none => ContextUpdates.empty
      match update_sm_policy_decision store smPolicyId triggers cu now with
      | .error e => .error e
      | .ok d => .ok (PyDict.aset store smPolicyId d, d)
  else .error "404: SM Policy Association not found"

/-- The PATCH handler with its catch-all `except Exception` (pcf.py lines
601-604): every exception — the HTTPException(404) for an unknown id and
the ValueError for an unknown trigger string alike — resurfaces as a 500
"SM Policy update failed: ...". -/
def update_sm_policy (store : List (String × SmPolicyDecision)) (smPolicyId : String)
    (update_data : Option UpdateData) (now : Nat) :
    Except HttpError (List (String × SmPolicyDecision) × SmPolicyDecision) :=
  match update_sm_policy_inner store smPolicyId update_data now with
  | .ok r => .ok r
  | .error e => .error { status := 500, detail := "SM Policy update failed: " ++ e }

end PCF

/-- C5: Update SM Policy does NOT answer not-found (404) for an unknown
policy association id, nor invalid-argument (400) for a trigger string
outside the enumeration: the handler's blanket `except Exception` catches
the HTTPException(404) and the ValueError alike and re-raises a 500.
Both claimed inputs observably yield HTTP 500. -/
theorem C5_update_sm_policy_both_errors_become_500 :
    (PCF.update_sm_policy [] "assoc-unknown" none 0 =
      Except.error { status := 500,
                     detail := "SM Policy update failed: 404: SM Policy Association not found" })
    ∧ (PCF.update_sm_policy
        [("assoc-1", PCF.create_sm_policy_decision
            { supi := "imsi-001010000000001", pduSessionId := 1,
              pduSessionType := "IPV4", dnn := "internet",
              online := none, offline := none } 0)]
        "assoc-1"
        (some { triggers := some ["NOT_A_TRIGGER"], context_updates := none }) 0 =
      Except.error { status := 500,
                     detail := "SM Policy update failed: ValueError: not a valid PolicyControlRequestTrigger" }) := by
  constructor
  · rfl
  · rfl

/-!
## NRF (nrf.py)

Discovery filters the registered profiles by target type, allow-list,
service names, S-NSSAI and PLMN intersections (each filter only applied
when both the query value and the profile field are truthy), keeps only
nfStatus REGISTERED, sorts by `(priority or 0, -(capacity or 0))` — the
stable Python sort is modelled by insertion sort over the same key — and
applies the truthy `limit` as a final truncation.
-/

namespace NRF

/-- Python truthiness of an optional list (`None` and `[]` are falsy). -/
def truthyList {α : Type} : Option (List α) → Bool
  | none => false
  | some l => !l.isEmpty

structure PlmnId where
  mcc : String
  mnc : String
deriving Repr, DecidableEq

/-- NFService (nrf.py lines 87-105), reduced to the name discovery reads. -/
structure NFService where
  serviceInstanceId : String
  serviceName : String
deriving Repr, DecidableEq

/-- NFProfile (nrf.py lines 145-206), reduced to the fields discovery reads. -/
structure NFProfile where
  nfInstanceId : String
  nfType : String
  nfStatus : String
  plmnList : Option (List PlmnId)
  sNssais : Option (List Snssai)
  allowedNfTypes : Option (List String)
  nfServices : Option (List NFService)
  priority : Option Nat
  capacity : Option Nat
  load : Option Nat
deriving Repr, DecidableEq

/-- The continue-chain of NRF.find_nf_instances (nrf.py lines 297-347) as
one predicate: a profile survives every filter and is REGISTERED. -/
def passesFilters (nf : NFProfile) (target_nf_type requester_nf_type : Option String)
    (service_names : Option (List String)) (snssais : Option (List Snssai))
    (plmn_list : Option (List PlmnId)) : Bool :=
  (match target_nf_type with
   | some t => nf.nfType == t
   | none => true)
  && (if requester_nf_type.isSome && truthyList nf.allowedNfTypes then
        (nf.allowedNfTypes.getD []).contains (requester_nf_type.getD "")
      else true)
  && (if truthyList service_names && truthyList nf.nfServices then
        (nf.nfServices.getD []).any
          (fun s => (service_names.getD []).contains s.serviceName)
      else true)
  && (if truthyList snssais && truthyList nf.sNssais then
        (snssais.getD []).any (fun t => (nf.sNssais.getD []).any
          (fun s => t.sst == s.sst && t.sd == s.sd))
      else true)
  && (if truthyList plmn_list && truthyList nf.plmnList then
        (plmn_list.getD []).any (fun t => (nf.plmnList.getD []).any
          (fun p => t.mcc == p.mcc && t.mnc == p.mnc))
      else true)
  && (nf.nfStatus == "REGISTERED")

/-- The sort order of nrf.py line 350,
`key=lambda nf: (nf.priority or 0, -(nf.capacity or 0))`: ascending
priority, then descending capacity. -/
def sortLe (a b : NFProfile) : Prop :=
  a.priority.getD 0 < b.priority.getD 0
  ∨ (a.priority.getD 0 = b.priority.getD 0 ∧ b.capacity.getD 0 ≤ a.capacity.getD 0)

instance : DecidableRel sortLe := fun _ _ =>
  inferInstanceAs (Decidable (_ ∨ _))

instance : IsTotal NFProfile sortLe :=
  ⟨by intro a b; unfold sortLe; omega⟩

instance : IsTrans NFProfile sortLe :=
  ⟨by intro a b c; unfold sortLe; omega⟩

/-- The truthy `limit` truncation of nrf.py lines 353-354 (Python
`if limit:`: absent or zero means no truncation). -/
def applyLimit (limit : Option Nat) (l : List NFProfile) : List NFProfile :=
  if limit.getD 0 ≠ 0 then l.take (limit.getD 0) else l

/-- NRF.find_nf_instances (nrf.py lines 286-356). -/
def find_nf_instances (profiles : List NFProfile)
    (target_nf_type requester_nf_type : Option String)
    (service_names : Option (List String)) (snssais : Option (List Snssai))
    (plmn_list : Option (List PlmnId)) (limit : Option Nat) : List NFProfile :=
  applyLimit limit (List.insertionSort sortLe
    (profiles.filter (fun nf => passesFilters nf target_nf_type
      requester_nf_type service_names snssais plmn_list)))

theorem applyLimit_none (l : List NFProfile) : applyLimit none l = l := rfl

theorem applyLimit_sorted {l : List NFProfile} (limit : Option Nat)
    (h : List.Sorted sortLe l) : List.Sorted sortLe (applyLimit limit l) := by
  unfold applyLimit
  by_cases hn : limit.getD 0 ≠ 0
  · rw [if_pos hn]
    exact h.sublist (List.take_sublist _ _)
  · rw [if_neg hn]
    exact h

theorem passesFilters_self_target (p : NFProfile) :
    passesFilters p (some p.nfType) none none none none = (p.nfStatus == "REGISTERED") := by
  unfold passesFilters
  simp [truthyList]

end NRF

/-- C8: NRF discovery returns only REGISTERED profiles — for every stored
profile p, a discovery with target NF type p.nfType and no other filters
includes p iff p.nfStatus = REGISTERED — the returned list is sorted
ascending by priority then descending by capacity, and a supplied
(nonzero) limit truncates the sorted list. -/
theorem C8_discovery_registered_sorted_limited :
    (∀ (profiles : List NRF.NFProfile) (p : NRF.NFProfile), p ∈ profiles →
      (p ∈ NRF.find_nf_instances profiles (some p.nfType) none none none none none ↔
        p.nfStatus = "REGISTERED"))
    ∧ (∀ (profiles : List NRF.NFProfile)
         (target requester : Option String) (service_names : Option (List String))
         (snssais : Option (List Snssai)) (plmn_list : Option (List NRF.PlmnId))
         (limit : Option Nat),
        List.Sorted NRF.sortLe (NRF.find_nf_instances profiles target requester
          service_names snssais plmn_list limit))
    ∧ (∀ (profiles : List NRF.NFProfile)
         (target requester : Option String) (service_names : Option (List String))
         (snssais : Option (List Snssai)) (plmn_list : Option (List NRF.PlmnId))
         (n : Nat), n ≠ 0 →
        NRF.find_nf_instances profiles target requester service_names snssais
          plmn_list (some n) =
        (NRF.find_nf_instances profiles target requester service_names snssais
          plmn_list none).take n) := by
  refine ⟨?_, ?_, ?_⟩
  · intro profiles p hp
    unfold NRF.find_nf_instances
    rw [NRF.applyLimit_none]
    rw [(List.perm_insertionSort NRF.sortLe _).mem_iff, List.mem_filter]
    rw [NRF.passesFilters_self_target, beq_iff_eq]
    constructor
    · intro h
      exact h.2
    · intro h
      exact ⟨hp, h⟩
  · intro profiles target requester service_names snssais plmn_list limit
    unfold NRF.find_nf_instances
    exact NRF.applyLimit_sorted limit (List.sorted_insertionSort NRF.sortLe _)
  · intro profiles target requester service_names snssais plmn_list n hn
    unfold NRF.find_nf_instances NRF.applyLimit
    have h1 : (some n).getD 0 = n := rfl
    rw [h1, if_pos hn, if_neg (by decide : ¬((none : Option Nat).getD 0 ≠ 0))]

/-- C8 witness: the theorem applied at a concrete registry holding one
REGISTERED and one SUSPENDED AMF profile, and a concrete limit of 1. -/
theorem C8_witness :
    (let pReg : NRF.NFProfile :=
      { nfInstanceId := "amf-1", nfType := "AMF", nfStatus := "REGISTERED",
        plmnList := none, sNssais := none, allowedNfTypes := none, nfServices := none,
        priority := some 1, capacity := some 100, load := none }
     let pSusp : NRF.NFProfile :=
      { nfInstanceId := "amf-2", nfType := "AMF", nfStatus := "SUSPENDED",
        plmnList := none, sNssais := none, allowedNfTypes := none, nfServices := none,
        priority := some 1, capacity := some 50, load := none }
     (pReg ∈ NRF.find_nf_instances [pReg, pSusp] (some "AMF") none none none none none ↔
       pReg.nfStatus = "REGISTERED")
     ∧ (pSusp ∈ NRF.find_nf_instances [pReg, pSusp] (some "AMF") none none none none none ↔
       pSusp.nfStatus = "REGISTERED")
     ∧ List.Sorted NRF.sortLe
         (NRF.find_nf_instances [pReg, pSusp] (some "AMF") none none none none none)
     ∧ NRF.find_nf_instances [pReg, pSusp] (some "AMF") none none none none (some 1) =
         (NRF.find_nf_instances [pReg, pSusp] (some "AMF") none none none none none).take 1) := by
  refine ⟨?_, ?_, ?_, ?_⟩
  · exact C8_discovery_registered_sorted_limited.1 _ _ (by decide)
  · exact C8_discovery_registered_sorted_limited.1 _ _ (by decide)
  · exact C8_discovery_registered_sorted_limited.2.1 _ _ _ _ _ _ _
  · exact C8_discovery_registered_sorted_limited.2.2 _ _ _ _ _ _ 1 (by decide)

/-!
## DU RLC layer (du.py)

The acknowledged-mode receiver.  `receive_am_pdu` buffers an in-window
PDU and delivers ONLY the PDU just received, and only when its SN equals
VR(R); a buffered out-of-order PDU is never delivered by a later call, so
the released SNs always form the consecutive ascending run starting at
the initial VR(R).
-/

namespace RLC

/-- RlcHeader/RlcPdu (du.py), reduced to the fields the receiver reads. -/
structure RlcPdu where
  sn : Nat
  payload : String
deriving Repr, DecidableEq

/-- An RLC AM entity (du.py lines 222-240), reduced to the receive side. -/
structure AmEntity where
  rx_window : List (Nat × RlcPdu)
  vr_r : Nat
  vr_mr : Nat
  sn_field_length : Nat
deriving Repr, DecidableEq

/-- The entity created by RlcLayer.create_am_entity: VR(R)=0, VR(MR)=2048,
12-bit SN space. -/
def AmEntity.init : AmEntity :=
  { rx_window := [], vr_r := 0, vr_mr := 2048, sn_field_length := 12 }

/-- RlcLayer._is_in_receive_window (du.py lines 294-299). -/
def is_in_receive_window (sn vr_r vr_mr : Nat) : Bool :=
  if vr_r ≤ vr_mr then decide (vr_r ≤ sn) && decide (sn < vr_mr)
  else decide (sn ≥ vr_r) || decide (sn < vr_mr)

/-- RlcLayer.receive_am_pdu (du.py lines 271-292): an in-window PDU is
buffered; the SDU of THIS pdu is returned exactly when its SN equals
VR(R), which then advances modulo the SN space.  Buffered PDUs are never
re-examined. -/
def receive_am_pdu (e : AmEntity) (pdu : RlcPdu) : AmEntity × Option (Nat × String) :=
  if is_in_receive_window pdu.sn e.vr_r e.vr_mr then
    let e1 := { e with rx_window := PyDict.aset e.rx_window pdu.sn pdu }
    if pdu.sn == e.vr_r then
      ({ e1 with vr_r := (e1.vr_r + 1) % (2 ^ e1.sn_field_length) },
       some (pdu.sn, pdu.payload))
    else (e1, none)
  else (e, none)

/-- Feeding a sequence of PDUs to the receiver, collecting the delivered
(SN, SDU) pairs in order. -/
def receiveAll (e : AmEntity) : List RlcPdu → AmEntity × List (Nat × String)
  | [] => (e, [])
  | pdu :: rest =>
    match receive_am_pdu e pdu with
    | (e1, some d) =>
      match receiveAll e1 rest with
      | (e2, ds) => (e2, d :: ds)
    | (e1, none) => receiveAll e1 rest

theorem receive_vr_r_cases (e : AmEntity) (pdu : RlcPdu) :
    (receive_am_pdu e pdu).1.vr_r = e.vr_r
    ∨ ((receive_am_pdu e pdu).1.vr_r = (e.vr_r + 1) % (2 ^ e.sn_field_length)
        ∧ (receive_am_pdu e pdu).2 = some (e.vr_r, pdu.payload)) := by
  unfold receive_am_pdu
  by_cases hw : is_in_receive_window pdu.sn e.vr_r e.vr_mr = true
  · rw [if_pos hw]
    by_cases hs : (pdu.sn == e.vr_r) = true
    · rw [if_pos hs]
      right
      refine ⟨rfl, ?_⟩
      rw [beq_iff_eq] at hs
      rw [hs]
    · rw [if_neg hs]
      left
      rfl
  · rw [if_neg hw]
    left
    rfl

theorem receive_none_vr_r (e : AmEntity) (pdu : RlcPdu)
    (h : (receive_am_pdu e pdu).2 = none) :
    (receive_am_pdu e pdu).1.vr_r = e.vr_r ∧
    (receive_am_pdu e pdu).1.sn_field_length = e.sn_field_length := by
  unfold receive_am_pdu at *
  by_cases hw : is_in_receive_window pdu.sn e.vr_r e.vr_mr = true
  · rw [if_pos hw] at h ⊢
    by_cases hs : (pdu.sn == e.vr_r) = true
    · rw [if_pos hs] at h
      simp at h
    · rw [if_neg hs]
      exact ⟨rfl, rfl⟩
  · rw [if_neg hw]
    exact ⟨rfl, rfl⟩

theorem receive_some_shape (e : AmEntity) (pdu : RlcPdu) (d : Nat × String)
    (h : (receive_am_pdu e pdu).2 = some d) :
    d.1 = e.vr_r ∧ (receive_am_pdu e pdu).1.vr_r = (e.vr_r + 1) % (2 ^ e.sn_field_length)
    ∧ (receive_am_pdu e pdu).1.sn_field_length = e.sn_field_length := by
  unfold receive_am_pdu at *
  by_cases hw : is_in_receive_window pdu.sn e.vr_r e.vr_mr = true
  · rw [if_pos hw] at h ⊢
    by_cases hs : (pdu.sn == e.vr_r) = true
    · rw [if_pos hs] at h ⊢
      simp only [Option.some.injEq] at h
      subst h
      rw [beq_iff_eq] at hs
      exact ⟨hs, rfl, rfl⟩
    · rw [if_neg hs] at h
      simp at h
  · rw [if_neg hw] at h
    simp at h

/-- The delivered SNs of a run are the consecutive ascending block
starting at the entity's VR(R), provided the run is short enough not to
wrap the SN space. -/
theorem receiveAll_sns_consecutive (pdus : List RlcPdu) :
    ∀ (e : AmEntity), e.vr_r + pdus.length < 2 ^ e.sn_field_length →
    (receiveAll e pdus).2.map Prod.fst =
      List.range' e.vr_r (receiveAll e pdus).2.length := by
  induction pdus with
  | nil =>
    intro e hb
    rfl
  | cons pdu rest ih =>
    intro e hb
    rw [List.length_cons] at hb
    cases hrec : receive_am_pdu e pdu with
    | mk e1 dopt =>
      cases dopt with
      | none =>
        have hstep : receiveAll e (pdu :: rest) = receiveAll e1 rest := by
          show (match receive_am_pdu e pdu with
                | (e1, some d) =>
                  match receiveAll e1 rest with
                  | (e2, ds) => (e2, d :: ds)
                | (e1, none) => receiveAll e1 rest) = receiveAll e1 rest
          rw [hrec]
        have hn := receive_none_vr_r e pdu (by rw [hrec])
        have h1 : e1.vr_r = e.vr_r := by
          have h := hn.1
          rw [hrec] at h
          exact h
        have h2 : e1.sn_field_length = e.sn_field_length := by
          have h := hn.2
          rw [hrec] at h
          exact h
        rw [hstep, ← h1]
        exact ih e1 (by rw [h1, h2]; omega)
      | some d =>
        have hs := receive_some_shape e pdu d (by rw [hrec])
        have hd1 : d.1 = e.vr_r := hs.1
        have h1 : e1.vr_r = (e.vr_r + 1) % (2 ^ e.sn_field_length) := by
          have h := hs.2.1
          rw [hrec] at h
          exact h
        have h2 : e1.sn_field_length = e.sn_field_length := by
          have h := hs.2.2
          rw [hrec] at h
          exact h
        have hmod : (e.vr_r + 1) % (2 ^ e.sn_field_length) = e.vr_r + 1 :=
          Nat.mod_eq_of_lt (by omega)
        have hstep : receiveAll e (pdu :: rest) =
            ((receiveAll e1 rest).1, d :: (receiveAll e1 rest).2) := by
          show (match receive_am_pdu e pdu with
                | (e1, some d) =>
                  match receiveAll e1 rest with
                  | (e2, ds) => (e2, d :: ds)
                | (e1, none) => receiveAll e1 rest) =
              ((receiveAll e1 rest).1, d :: (receiveAll e1 rest).2)
          rw [hrec]
        have ihr := ih e1 (by rw [h1, h2, hmod]; omega)
        rw [hstep]
        simp only [List.map_cons, List.length_cons, hd1]
        rw [ihr, h1, hmod, List.range'_succ]

end RLC

/-- C9 counterexample: the claim "given RLC AM SDUs with SNs 0..N-1
presented to the receiver in any order, the entity releases the SDUs to
upper layers in SN order" is false at a concrete input: with N = 2 and
arrival order [SN 1, SN 0], the receiver buffers SN 1, releases only
SDU 0 on the arrival of SN 0, and never releases the buffered SDU 1 —
only 1 of the 2 SDUs is released. -/
theorem C9_buffered_pdu_never_released :
    (RLC.receiveAll RLC.AmEntity.init
      [{ sn := 1, payload := "sdu1" }, { sn := 0, payload := "sdu0" }]).2 =
      [(0, "sdu0")] := by
  decide

/-- C9 amended: the SDUs the receiver does release come out in SN order —
for every arrival sequence (short enough not to wrap the 12-bit SN
space), the sequence of released SNs is exactly the consecutive ascending
run starting at the initial VR(R) — but a PDU buffered out of order is
never released by a later call, so not every arrival order releases all
SDUs (see the counterexample). -/
theorem C9_released_sns_consecutive :
    ∀ (pdus : List RLC.RlcPdu) (e : RLC.AmEntity),
      e.vr_r + pdus.length < 2 ^ e.sn_field_length →
      (RLC.receiveAll e pdus).2.map Prod.fst =
        List.range' e.vr_r (RLC.receiveAll e pdus).2.length :=
  fun pdus e hb => RLC.receiveAll_sns_consecutive pdus e hb

/-- C9 witness: the amended theorem applied to the two-PDU arrival order
[1, 0] at the freshly created entity. -/
theorem C9_witness :
    RLC.AmEntity.init.vr_r + 2 < 2 ^ RLC.AmEntity.init.sn_field_length
    ∧ (RLC.receiveAll RLC.AmEntity.init
        [{ sn := 1, payload := "sdu1" }, { sn := 0, payload := "sdu0" }]).2.map Prod.fst =
      List.range' RLC.AmEntity.init.vr_r
        (RLC.receiveAll RLC.AmEntity.init
          [{ sn := 1, payload := "sdu1" }, { sn := 0, payload := "sdu0" }]).2.length :=
  ⟨by decide,
   C9_released_sns_consecutive
     [{ sn := 1, payload := "sdu1" }, { sn := 0, payload := "sdu0" }]
     RLC.AmEntity.init (by decide)⟩
